import Mathlib

/-!
Verification development for the bd-network backend (entity-resolution,
ingestion and graph-assembly pipeline).

The Python sources under backend/app are shallowly embedded:

* pure string helpers model the Python string methods used by the code
  (ASCII lower/upper/strip/split; Python str.lower and SQLite LOWER agree
  with the ASCII model on the ASCII inputs the claims are about);
* a small total backtracking regex engine models the re module for the
  fixed pattern set used by normalization_service.py (literals, character
  classes, alternation, option, star/plus over character classes, end
  anchor) with the leftmost, first-success-in-backtracking-order match
  extent that Python re produces, and re.sub / re.split / re.match are
  modelled on top of it;
* the SQLite store (sqlite_service.py) is modelled as a record of
  function-backed tables keyed exactly like the SQL primary keys; each
  service method becomes a State -> State function; JSON serialization of
  evidence blobs is treated as the identity (the code only round-trips
  these values), and the updated_at / extracted_at wall-clock strings are
  passed in explicitly;
* REAL columns only ever hold the literal confidences written by the code
  and are modelled as rationals;
* hashlib.md5 hexdigest is an external primitive and is left as a function
  parameter (written h below); every theorem about identities holds for
  every instantiation, and concrete runs instantiate it with an injective
  stand-in, which produces the same control flow as the real digest
  because the code only ever compares identities for equality;
* NormalizationService.enrich_asset (the regex-heuristic plus optional
  LLM enrichment producing only asset attribute fields that no claim
  inspects) is left as a function parameter of the ingestion context.
-/

/-! ## Python-style string primitives (ASCII model) -/

/-- ASCII lowercase of one character, as in SQLite LOWER and as in Python
str.lower restricted to ASCII. -/
def lowerChar (c : Char) : Char :=
  if ('A' ≤ c && c ≤ 'Z') then Char.ofNat (c.toNat + 32) else c

/-- ASCII uppercase of one character. -/
def upperChar (c : Char) : Char :=
  if ('a' ≤ c && c ≤ 'z') then Char.ofNat (c.toNat - 32) else c

/-- Whitespace test used for the Python str.strip / str.split model and for
the regex class backslash-s. -/
def isWs (c : Char) : Bool := c.isWhitespace

/-- Python name.lower() (ASCII model). -/
def pyLower (s : String) : String := ⟨s.data.map lowerChar⟩

/-- Python name.upper() (ASCII model). -/
def pyUpper (s : String) : String := ⟨s.data.map upperChar⟩

/-- Python name.strip(): drop leading and trailing whitespace. -/
def pyStrip (s : String) : String :=
  ⟨(s.data.dropWhile isWs).reverse.dropWhile isWs |>.reverse⟩

/-- Helper for pySplitWs: split a character list on whitespace runs,
discarding empty pieces, accumulating the current word reversed. -/
def splitWsGo : List Char → List Char → List (List Char)
  | [], acc => if acc.isEmpty then [] else [acc.reverse]
  | c :: t, acc =>
    if isWs c then
      if acc.isEmpty then splitWsGo t [] else acc.reverse :: splitWsGo t []
    else splitWsGo t (c :: acc)

/-- Python name.split() with no argument: split on whitespace runs,
no empty pieces. -/
def pySplitWs (s : String) : List String :=
  (splitWsGo s.data []).map fun l => ⟨l⟩

/-- Python word.capitalize(): first character uppercased, rest lowercased
(ASCII model). -/
def pyCapitalize (s : String) : String :=
  match s.data with
  | [] => ""
  | c :: t => ⟨upperChar c :: t.map lowerChar⟩

/-- Python " ".join(parts). -/
def joinSpace : List String → String
  | [] => ""
  | [x] => x
  | x :: y :: t => x ++ " " ++ joinSpace (y :: t)

/-- Occurrence of sub as a contiguous sublist of hay. -/
def listInfixOf (sub : List Char) : List Char → Bool
  | [] => sub.isEmpty
  | c :: t => sub.isPrefixOf (c :: t) || listInfixOf sub t

/-- Python substring test: sub in hay. -/
def strContains (hay sub : String) : Bool := listInfixOf sub.data hay.data

/-- Python hay.startswith(sub). -/
def strStartsWith (hay sub : String) : Bool := sub.data.isPrefixOf hay.data

/-- Python truthiness of an optional string (None and the empty string are
falsy). -/
def truthyStr : Option String → Bool
  | none => false
  | some s => !s.isEmpty

/-- Python list(set(xs)) where no claim depends on the set iteration order:
modelled as first-occurrence deduplication. -/
def dedupFirst : List String → List String
  | [] => []
  | x :: t => x :: (dedupFirst t).filter (fun y => y ≠ x)

/-! ## A total regex engine for the fixed patterns of the repository

Constructors cover exactly what the normalization patterns need.  The
matcher is a backtracking matcher in continuation style returning the
FIRST success in the same exploration order as Python re (alternatives
left to right, quantifiers greedy), so the match extent that reSub and
reSplit cut out is the Python one. -/

/-- Regex abstract syntax. Quantifiers are restricted to single-character
classes, which covers every pattern in normalization_service.py. -/
inductive Re where
  | eps
  | cls (p : Char → Bool)
  | seq (a b : Re)
  | alt (a b : Re)
  | opt (a : Re)
  | starCls (p : Char → Bool)
  | plusCls (p : Char → Bool)
  | eos
deriving Inhabited

/-- Greedy star over a character class in continuation style: consume as
many class characters as possible, backtracking to the continuation. -/
def starRun (p : Char → Bool) (k : List Char → Option (List Char)) :
    List Char → Option (List Char)
  | [] => k []
  | c :: t =>
    match (if p c then starRun p k t else none) with
    | some r => some r
    | none => k (c :: t)

/-- The matcher: reMatch re s k matches re against a prefix of s and calls
the continuation k on the remainder, returning the first success in
Python re exploration order. -/
def reMatch : Re → List Char → (List Char → Option (List Char)) → Option (List Char)
  | .eps, s, k => k s
  | .cls _, [], _ => none
  | .cls p, c :: t, k => if p c then k t else none
  | .seq a b, s, k => reMatch a s (fun s2 => reMatch b s2 k)
  | .alt a b, s, k =>
    match reMatch a s k with
    | some r => some r
    | none => reMatch b s k
  | .opt a, s, k =>
    match reMatch a s k with
    | some r => some r
    | none => k s
  | .starCls p, s, k => starRun p k s
  | .plusCls _, [], _ => none
  | .plusCls p, c :: t, k => if p c then starRun p k t else none
  | .eos, s, k => if s.isEmpty then k s else none

/-- Match re against a prefix of s (like re.match); returns the remainder
after the matched prefix. -/
def reMatchAt (re : Re) (s : List Char) : Option (List Char) :=
  reMatch re s (fun rest => some rest)

/-- re.match as a test: does re match at the start of the string. -/
def reMatches (re : Re) (s : String) : Bool := (reMatchAt re s.data).isSome

/-- One scanning pass of re.sub with a one-character replacement: find the
leftmost match, replace it, continue after it (fuelled by the string
length; every pattern fed to it matches at least one character). -/
def reSubGo (re : Re) (rep : Char) : Nat → List Char → List Char
  | 0, s => s
  | fuel + 1, s =>
    match reMatchAt re s with
    | some rest =>
      if rest.length < s.length then rep :: reSubGo re rep fuel rest
      else
        match s with
        | [] => [rep]
        | c :: t => rep :: c :: reSubGo re rep fuel t
    | none =>
      match s with
      | [] => []
      | c :: t => c :: reSubGo re rep fuel t

/-- re.sub(pattern, " ", s) for the dosage and parenthesis patterns. -/
def reSub (re : Re) (rep : Char) (s : String) : String :=
  ⟨reSubGo re rep (s.data.length + 1) s.data⟩

/-- re.split helper: scan for the leftmost separator match, cut there,
continue after it. -/
def reSplitGo (re : Re) : Nat → List Char → List Char → List (List Char)
  | 0, acc, s => [acc.reverse ++ s]
  | fuel + 1, acc, s =>
    match reMatchAt re s with
    | some rest =>
      if rest.length < s.length then acc.reverse :: reSplitGo re fuel [] rest
      else
        match s with
        | [] => [acc.reverse]
        | c :: t => reSplitGo re fuel (c :: acc) t
    | none =>
      match s with
      | [] => [acc.reverse]
      | c :: t => reSplitGo re fuel (c :: acc) t

/-- re.split(pattern, s). -/
def reSplit (re : Re) (s : String) : List String :=
  (reSplitGo re (s.data.length + 1) [] s.data).map fun l => ⟨l⟩

/-! Pattern building blocks. -/

/-- Case-insensitive single-character literal class (re.IGNORECASE). -/
def ciCls (c : Char) : Re := .cls (fun d => lowerChar d = lowerChar c)

/-- Sequence a list of regexes. -/
def reSeqL (l : List Re) : Re := l.foldr .seq .eps

/-- Case-insensitive literal string. -/
def reLit (s : String) : Re := reSeqL (s.data.map ciCls)

/-- First-to-last alternation of a nonempty pattern list. -/
def reAltL : List Re → Re
  | [] => .eps
  | [r] => r
  | r :: s :: t => .alt r (reAltL (s :: t))

/-- The regex class backslash-s. -/
def wsCls : Char → Bool := isWs

/-- The regex class backslash-d. -/
def digitCls : Char → Bool := Char.isDigit

example : reMatches (reLit "abc") "aBcd" = true := by decide
example : reMatches (reLit "abc") "aXcd" = false := by decide
example : reSub (.seq (.plusCls digitCls) (reLit "mg")) '-' "ab 12mg cd 3MG e" = "ab - cd - e" := by decide
example : reSplit (.plusCls wsCls) "a b  c" = ["a", "b", "c"] := by decide
example : pySplitWs "  foo bar  " = ["foo", "bar"] := by decide
example : pyStrip "  x y " = "x y" := by decide
example : pyCapitalize "wORD" = "Word" := by decide

/-! ## normalization_service.py: static tables -/

/-- First-match association lookup modelling dict.get on the static tables
below (their keys are pairwise distinct, so this equals Python dict
semantics). -/
def assocLookup (l : List (String × α)) (k : String) : Option α :=
  (l.find? (fun e => e.1 = k)).map (fun e => e.2)

/-- DRUG_ALIASES: canonical name to known aliases and code names. -/
def DRUG_ALIASES : List (String × List String) :=
  [ ("tebentafusp", ["kimmtrak", "ime-403", "imcgp100", "imc-gp100", "imcgp-100", "tebentafusp-tebn"]),
    ("darovasertib", ["ide196", "ide-196", "lxs196", "lxs-196"]),
    ("pembrolizumab", ["keytruda", "mk-3475", "mk3475", "lambrolizumab"]),
    ("nivolumab", ["opdivo", "bms-936558", "mdx-1106", "ono-4538"]),
    ("ipilimumab", ["yervoy", "mdx-010", "bms-734016"]),
    ("crizotinib", ["xalkori", "pf-02341066"]),
    ("dacarbazine", ["dtic", "dtic-dome"]),
    ("temozolomide", ["temodar", "temodal"]),
    ("atezolizumab", ["tecentriq", "mpdl3280a"]),
    ("durvalumab", ["imfinzi", "medi4736"]),
    ("tremelimumab", ["imjudo", "cp-675,206"]),
    ("relatlimab", ["opdualag", "bms-986016"]),
    ("sorafenib", ["nexavar"]),
    ("sunitinib", ["sutent"]),
    ("vemurafenib", ["zelboraf"]),
    ("dabrafenib", ["tafinlar"]),
    ("trametinib", ["mekinist"]),
    ("cobimetinib", ["cotellic"]),
    ("binimetinib", ["mektovi"]),
    ("encorafenib", ["braftovi"]),
    ("selumetinib", ["koselugo"]) ]

/-- Known-asset registry entry, fields in source order: owner, modality,
targets, fda_approved, brand_name, approval_date, is_generic (absent dict
keys are none / false). -/
structure KnownDrugInfo where
  owner : Option String
  modality : Option String
  targets : List String
  fda_approved : Option Bool
  brand_name : Option String
  approval_date : Option String
  is_generic : Bool
deriving DecidableEq, Inhabited

/-- KNOWN_DRUG_OWNERS: canonical drug name to registry entry. -/
def KNOWN_DRUG_OWNERS : List (String × KnownDrugInfo) :=
  [ ("darovasertib", ⟨some "IDEAYA Biosciences", some "small_molecule", ["PKC"], some false, none, none, false⟩),
    ("tebentafusp", ⟨some "Immunocore", some "bispecific", ["gp100", "CD3"], some true, some "KIMMTRAK", some "2022-01-25", false⟩),
    ("pembrolizumab", ⟨some "Merck", some "antibody", ["PD-1"], some true, some "Keytruda", none, false⟩),
    ("nivolumab", ⟨some "Bristol-Myers Squibb", some "antibody", ["PD-1"], some true, some "Opdivo", none, false⟩),
    ("ipilimumab", ⟨some "Bristol-Myers Squibb", some "antibody", ["CTLA-4"], some true, some "Yervoy", none, false⟩),
    ("relatlimab", ⟨some "Bristol-Myers Squibb", some "antibody", ["LAG-3"], some true, some "Opdualag", none, false⟩),
    ("crizotinib", ⟨some "Pfizer", some "small_molecule", ["ALK", "MET", "ROS1"], some true, some "Xalkori", none, false⟩),
    ("atezolizumab", ⟨some "Roche", some "antibody", ["PD-L1"], some true, some "Tecentriq", none, false⟩),
    ("durvalumab", ⟨some "AstraZeneca", some "antibody", ["PD-L1"], some true, some "Imfinzi", none, false⟩),
    ("tremelimumab", ⟨some "AstraZeneca", some "antibody", ["CTLA-4"], some true, some "Imjudo", none, false⟩),
    ("sorafenib", ⟨some "Bayer", some "small_molecule", ["RAF", "VEGFR"], some true, some "Nexavar", none, false⟩),
    ("sunitinib", ⟨some "Pfizer", some "small_molecule", ["VEGFR", "PDGFR"], some true, some "Sutent", none, false⟩),
    ("vemurafenib", ⟨some "Roche", some "small_molecule", ["BRAF"], some true, some "Zelboraf", none, false⟩),
    ("dabrafenib", ⟨some "Novartis", some "small_molecule", ["BRAF"], some true, some "Tafinlar", none, false⟩),
    ("trametinib", ⟨some "Novartis", some "small_molecule", ["MEK"], some true, some "Mekinist", none, false⟩),
    ("binimetinib", ⟨some "Pfizer", some "small_molecule", ["MEK"], some true, some "Mektovi", none, false⟩),
    ("encorafenib", ⟨some "Pfizer", some "small_molecule", ["BRAF"], some true, some "Braftovi", none, false⟩),
    ("selumetinib", ⟨some "AstraZeneca", some "small_molecule", ["MEK"], some true, some "Koselugo", none, false⟩),
    ("dacarbazine", ⟨none, some "chemotherapy", [], some true, none, none, true⟩),
    ("temozolomide", ⟨none, some "chemotherapy", [], some true, none, none, true⟩) ]

/-- COMPANY_NAME_ALIASES: lowercase variation to canonical display name. -/
def COMPANY_NAME_ALIASES : List (String × String) :=
  [ ("ideaya biosciences", "IDEAYA Biosciences"),
    ("ideaya", "IDEAYA Biosciences"),
    ("immunocore ltd", "Immunocore"),
    ("immunocore limited", "Immunocore"),
    ("immunocore holdings", "Immunocore"),
    ("merck sharp & dohme", "Merck"),
    ("merck & co", "Merck"),
    ("msd", "Merck"),
    ("bristol-myers squibb", "Bristol-Myers Squibb"),
    ("bristol myers squibb", "Bristol-Myers Squibb"),
    ("bms", "Bristol-Myers Squibb"),
    ("pfizer inc", "Pfizer"),
    ("f. hoffmann-la roche", "Roche"),
    ("hoffmann-la roche", "Roche"),
    ("genentech", "Roche"),
    ("astrazeneca", "AstraZeneca"),
    ("novartis pharmaceuticals", "Novartis"),
    ("novartis ag", "Novartis") ]

/-- ALIAS_TO_CANONICAL, built from DRUG_ALIASES exactly as in the source
module body. -/
def ALIAS_TO_CANONICAL : List (String × String) :=
  DRUG_ALIASES.foldl
    (fun acc e => acc ++ (pyLower e.1, e.1) :: e.2.map (fun a => (pyLower a, e.1))) []

/-! ## normalization_service.py: regular expression constants -/

/-- Skip patterns of normalize_intervention (placebo and friends), matched
with re.match against the lowercased name. -/
def SKIP_PATTERNS : List Re :=
  [ .seq (reLit "placebo") .eos,
    reLit "sham",
    reSeqL [reLit "standard", .plusCls wsCls, reLit "of", .plusCls wsCls, reLit "care", .eos],
    reSeqL [reLit "best", .plusCls wsCls, reLit "supportive", .plusCls wsCls, reLit "care", .eos],
    .seq (reLit "observation") .eos,
    reSeqL [reLit "no", .plusCls wsCls, reLit "intervention", .eos],
    reLit "waitlist",
    .seq (.starCls wsCls) .eos ]

/-- Unit alternation of the first dosage pattern. -/
def unitAlt : Re :=
  reAltL [reLit "mg", reLit "g", reLit "ml", reLit "mcg", reLit "ug", reLit "µg",
          reLit "iu", .seq (reLit "unit") (.opt (ciCls 's'))]

/-- Per-quantity alternation of the first dosage pattern. -/
def perAlt : Re := reAltL [reLit "kg", reLit "m2", reLit "day", reLit "week"]

/-- Dosage pattern 1: amount, unit, optional /kg style divisor. -/
def DOSAGE_P1 : Re :=
  reSeqL [.starCls wsCls, .plusCls digitCls, .opt (.cls (fun c => c = '.')),
          .starCls digitCls, .starCls wsCls, unitAlt, .starCls wsCls,
          .opt (reSeqL [.cls (fun c => c = '/'), .starCls wsCls, perAlt]),
          .starCls wsCls]

/-- Dosage pattern 2: percentage. -/
def DOSAGE_P2 : Re :=
  reSeqL [.starCls wsCls, .plusCls digitCls, .opt (.cls (fun c => c = '.')),
          .starCls digitCls, .starCls wsCls, .cls (fun c => c = '%'), .starCls wsCls]

/-- Dosage pattern 3: frequency shorthand q2w, q3d and so on. -/
def DOSAGE_P3 : Re :=
  reSeqL [.starCls wsCls, ciCls 'q', .plusCls digitCls,
          .cls (fun c => lowerChar c = 'd' || lowerChar c = 'w' || lowerChar c = 'm' || lowerChar c = 'h'),
          .starCls wsCls]

/-- Period alternation of the fourth dosage pattern. -/
def periodAlt : Re :=
  reAltL [.seq (reLit "day") (.opt (ciCls 's')),
          .seq (reLit "week") (.opt (ciCls 's')),
          .seq (reLit "month") (.opt (ciCls 's'))]

/-- Dosage pattern 4: every N days/weeks/months. -/
def DOSAGE_P4 : Re :=
  reSeqL [.starCls wsCls, reLit "every", .plusCls wsCls, .plusCls digitCls,
          .plusCls wsCls, periodAlt, .starCls wsCls]

/-- Parenthetical-content pattern of normalize_intervention. -/
def PAREN_RE : Re :=
  reSeqL [.starCls wsCls, .cls (fun c => c = '('), .starCls (fun c => c ≠ ')'),
          .cls (fun c => c = ')'), .starCls wsCls]

/-- Combination separators of _split_combinations, in source order. -/
def SEP_RE : Re :=
  reAltL
    [ reSeqL [.plusCls wsCls, .cls (fun c => c = '+'), .plusCls wsCls],
      reSeqL [.plusCls wsCls, reLit "plus", .plusCls wsCls],
      reSeqL [.plusCls wsCls, reLit "and", .plusCls wsCls],
      reSeqL [.plusCls wsCls, reLit "with", .plusCls wsCls],
      reSeqL [.plusCls wsCls, reLit "in", .plusCls wsCls, reLit "combination",
              .plusCls wsCls, reLit "with", .plusCls wsCls],
      reSeqL [.starCls wsCls, .cls (fun c => c = '/'), .plusCls wsCls],
      reSeqL [.plusCls wsCls, reLit "combined", .plusCls wsCls, reLit "with", .plusCls wsCls] ]

/-! ## normalization_service.py: functions -/

/-- NormalizationService._remove_dosage. -/
def remove_dosage (name : String) : String :=
  pyStrip ([DOSAGE_P1, DOSAGE_P2, DOSAGE_P3, DOSAGE_P4].foldl (fun r p => reSub p ' ' r) name)

/-- NormalizationService._split_combinations. -/
def split_combinations (name : String) : List String :=
  ((reSplit SEP_RE name).map pyStrip).filter (fun p => !p.isEmpty)

/-- Result of normalize_intervention: canonical name, synonyms, and the
combination components when the key is present. -/
structure NormalizedIntervention where
  name : String
  synonyms : List String
  combination_with : Option (List String)
deriving DecidableEq, Inhabited

/-- NormalizationService._normalize_single. -/
def normalize_single (name0 : String) : Option NormalizedIntervention :=
  if name0.isEmpty then none
  else
    let name := pyStrip name0
    let name_lower := pyLower name
    match assocLookup ALIAS_TO_CANONICAL name_lower with
    | some canonical =>
      let syn0 : List String := if pyLower name ≠ pyLower canonical then [name] else []
      let syn1 : List String :=
        match assocLookup DRUG_ALIASES canonical with
        | some aliases => syn0 ++ aliases.filter (fun a => pyLower a ≠ name_lower)
        | none => syn0
      some { name := canonical, synonyms := dedupFirst syn1, combination_with := none }
    | none =>
      some { name := joinSpace ((pySplitWs name).map pyCapitalize), synonyms := [],
             combination_with := none }

/-- NormalizationService.normalize_intervention. -/
def normalize_intervention (intervention : String) : Option NormalizedIntervention :=
  if intervention.isEmpty then none
  else
    let name1 := pyStrip intervention
    if SKIP_PATTERNS.any (fun p => reMatches p (pyLower name1)) then none
    else
      let name2 := remove_dosage name1
      let name3 := pyStrip (reSub PAREN_RE ' ' name2)
      let combos := split_combinations name3
      if combos.length > 1 then
        match combos with
        | [] => normalize_single name3
        | c0 :: rest =>
          match normalize_single c0 with
          | some primary =>
            some { name := primary.name, synonyms := primary.synonyms,
                   combination_with := some ((rest.filterMap normalize_single).map (fun n => n.name)) }
          | none => normalize_single name3
      else normalize_single name3

/-- NormalizationService.get_canonical_name. -/
def get_canonical_name (name : String) : String :=
  match normalize_intervention name with
  | some n => n.name
  | none => name

/-- What enrich_asset_with_known_data returns (known_owner, modality,
targets, fda_approved, brand_name, is_generic). -/
structure KnownAssetEnrichment where
  known_owner : Option String
  modality : Option String
  targets : List String
  fda_approved : Option Bool
  brand_name : Option String
  is_generic : Bool
deriving DecidableEq, Inhabited

/-- NormalizationService.enrich_asset_with_known_data. -/
def enrich_asset_with_known_data (drug_name : String) : KnownAssetEnrichment :=
  match assocLookup KNOWN_DRUG_OWNERS (pyLower (get_canonical_name drug_name)) with
  | some i => ⟨i.owner, i.modality, i.targets, i.fda_approved, i.brand_name, i.is_generic⟩
  | none => ⟨none, none, [], none, none, false⟩

/-- NormalizationService.normalize_company_name. -/
def normalize_company_name (name : String) : String :=
  match assocLookup COMPANY_NAME_ALIASES (pyStrip (pyLower name)) with
  | some c => c
  | none => name

/-- Company code-name prefixes of is_proprietary_to_sponsor, in source
order. -/
def COMPANY_PREFIXES : List (String × List String) :=
  [ ("ideaya", ["ide"]), ("immunocore", ["imc", "ime"]), ("merck", ["mk"]),
    ("bristol-myers squibb", ["bms", "mdx"]), ("pfizer", ["pf"]),
    ("astrazeneca", ["medi", "az"]), ("novartis", ["nvs", "lxs"]),
    ("roche", ["ro", "rg"]), ("genentech", ["gne"]) ]

/-- NormalizationService.is_proprietary_to_sponsor. -/
def is_proprietary_to_sponsor (drug_name sponsor_name : String) : Bool :=
  let canonical := pyLower (get_canonical_name drug_name)
  match assocLookup KNOWN_DRUG_OWNERS canonical with
  | some drug_info =>
    match drug_info.owner with
    | none => false
    | some owner =>
      let sponsor_lower := pyLower sponsor_name
      let sponsor_canonical := (assocLookup COMPANY_NAME_ALIASES sponsor_lower).getD sponsor_name
      let owner_lower := pyLower owner
      if strContains sponsor_lower owner_lower || strContains owner_lower sponsor_lower then true
      else if pyLower sponsor_canonical = owner_lower then true
      else false
  | none =>
    let drug_lower := pyLower drug_name
    let sponsor_lower := pyLower sponsor_name
    COMPANY_PREFIXES.any (fun cp =>
      strContains sponsor_lower cp.1 &&
      cp.2.any (fun pre => strStartsWith drug_lower pre || strContains drug_lower ("-" ++ pre)))

example : (normalize_intervention "  Pembrolizumab  ").map (fun n => n.name) = some "pembrolizumab" := by decide
example : (normalize_intervention "Keytruda").map (fun n => n.name) = some "pembrolizumab" := by decide
example : (normalize_intervention "Opdivo").map (fun n => n.name) = some "nivolumab" := by decide
example : normalize_intervention "Placebo" = none := by decide
example : normalize_intervention "Sham procedure" = none := by decide
example : normalize_intervention "   " = none := by decide
example : normalize_intervention "" = none := by decide
example : (normalize_intervention "Pembrolizumab 200mg").map (fun n => n.name) = some "pembrolizumab" := by decide
example : (normalize_intervention "Nivolumab 3mg/kg").map (fun n => n.name) = some "nivolumab" := by decide
example : (normalize_intervention "Ipilimumab + Nivolumab").map (fun n => n.name) = some "ipilimumab" := by decide
example : (normalize_intervention "Pembrolizumab plus Chemotherapy").map (fun n => n.name) = some "pembrolizumab" := by decide
example : (normalize_intervention "experimental drug xyz").map (fun n => n.name) = some "Experimental Drug Xyz" := by decide
example : is_proprietary_to_sponsor "pembrolizumab" "Merck Sharp & Dohme LLC" = true := by decide
example : is_proprietary_to_sponsor "tebentafusp" "Immunocore" = true := by decide
example : is_proprietary_to_sponsor "dacarbazine" "Merck" = false := by decide

/-! ## models/nodes.py and models/edges.py -/

/-- Evidence / provenance for a node field value. -/
structure Evidence where
  source_type : String
  source_url : Option String
  source_id : Option String
  confidence : ℚ
  extracted_at : String
  input_fields : Option (List String)
deriving DecidableEq, Inhabited

/-- Evidence / provenance for a relationship. -/
structure EdgeEvidence where
  source_type : String
  source_url : Option String
  source_id : Option String
  confidence : ℚ
  extracted_at : String
deriving DecidableEq, Inhabited

/-- Company node model. -/
structure Company where
  company_id : String
  name : String
  aliases : List String
  country : Option String
  public_flag : Option Bool
  tickers : List String
  cik : Option String
  status : Option String
  company_type : Option String
  evidence : List Evidence
deriving DecidableEq, Inhabited

/-- Company.generate_id; h is the md5 hexdigest primitive. -/
def Company.generate_id (h : String → String) (name : String) : String :=
  "company_" ++ (h (pyStrip (pyLower name))).take 12

/-- Asset node model. -/
structure Asset where
  asset_id : String
  name : String
  synonyms : List String
  modality : Option String
  targets : List String
  indications : List String
  stage_current : Option String
  evidence : List Evidence
  modality_confidence : Option ℚ
  targets_confidence : Option ℚ
deriving DecidableEq, Inhabited

/-- Asset.generate_id; h is the md5 hexdigest primitive. -/
def Asset.generate_id (h : String → String) (name : String) : String :=
  "asset_" ++ (h (pyStrip (pyLower name))).take 12

/-- Trial node model (dates carried as their str() form). -/
structure Trial where
  trial_id : String
  title : String
  phase : Option String
  status : Option String
  start_date : Option String
  completion_date : Option String
  interventions : List String
  conditions : List String
  sponsors : List String
  collaborators : List String
  enrollment : Option Int
  study_type : Option String
  brief_summary : Option String
  evidence : List Evidence
  source_url : String
deriving DecidableEq, Inhabited

/-- Document node model. -/
structure Document where
  doc_id : String
  doc_type : String
  publisher : Option String
  url : String
  published_at : Option String
  retrieved_at : String
  text_hash : Option String
  raw_content : Option String
deriving DecidableEq, Inhabited

/-- Deal node model (present for the clear_database frame claim). -/
structure Deal where
  deal_id : String
  deal_type : String
  announce_date : Option String
  summary : Option String
  status : Option String
  value_usd : Option ℚ
  evidence : List Evidence
deriving DecidableEq, Inhabited

/-- Owns edge model. -/
structure Owns where
  company_id : String
  asset_id : String
  from_date : Option String
  to_date : Option String
  confidence : ℚ
  source : String
  is_current : Bool
  evidence : List EdgeEvidence
deriving DecidableEq, Inhabited

/-- HasTrial edge model. -/
structure HasTrial where
  asset_id : String
  trial_id : String
  evidence : List EdgeEvidence
deriving DecidableEq, Inhabited

/-- SponsorsTrial edge model. -/
structure SponsorsTrial where
  company_id : String
  trial_id : String
  role : String
  evidence : List EdgeEvidence
deriving DecidableEq, Inhabited

/-- ParticipatesInTrial edge model. -/
structure ParticipatesInTrial where
  company_id : String
  trial_id : String
  role : String
  evidence : List EdgeEvidence
deriving DecidableEq, Inhabited

/-- Licenses edge model. -/
structure Licenses where
  company_id : String
  asset_id : String
  from_date : Option String
  to_date : Option String
  territory : Option String
  confidence : ℚ
  source : String
  evidence : List EdgeEvidence
deriving DecidableEq, Inhabited

/-- UsesAsComparator edge model. -/
structure UsesAsComparator where
  company_id : String
  asset_id : String
  trial_id : String
  evidence : List EdgeEvidence
deriving DecidableEq, Inhabited

/-- Name-pattern table of Company.infer_type_from_name: investigators. -/
def INVESTIGATOR_PATTERNS : List String :=
  [", md", " md,", " m.d.", ", phd", " ph.d.", ", do,", ", do ", "prof. dr.", "prof dr", ", facs"]

/-- Name-pattern table of Company.infer_type_from_name: government. -/
def GOV_PATTERNS : List String :=
  ["national institutes of health", "national cancer institute", "fda", "cdc",
   "department of defense", "department of health", "ministry of", "veterans affairs",
   "russian academy"]

/-- Name-pattern table of Company.infer_type_from_name: nonprofits. -/
def NONPROFIT_PATTERNS : List String :=
  ["eortc", "unicancer", "organisation for research", "organization for research",
   "alliance for clinical", "cooperative group", "study group", "research network",
   "research alliance", "partnership", "association nationale", "melanoma research",
   "cancer research network", "solti", "hoosier", "swog"]

/-- Name-pattern table of Company.infer_type_from_name: academic. -/
def ACADEMIC_PATTERNS : List String :=
  ["university", "college", "école", "universität", "universidad", "universitaire",
   "hospital", "medical center", "cancer center", "clinic", "clinique",
   "institute", "institut", "research center", "academy",
   "school of medicine", "faculty of", "health network",
   "comprehensive cancer", "curie", "hospitalier", "hopital",
   "charite", "chu de", "chu ", "karolinska", "moffitt", "sloan kettering",
   "dana-farber", "mayo clinic", "fred hutchinson", "northwell",
   "m.d. anderson", "md anderson", "memorial sloan", "city of hope",
   "centre jean perrin", "retina research", "foundation"]

/-- Name-pattern table of Company.infer_type_from_name: industry suffixes
and keywords. -/
def INDUSTRY_PATTERNS : List String :=
  ["inc.", "inc,", " inc", "ltd.", "ltd,", " ltd", "llc", "l.l.c.",
   "corp.", "corp,", "corporation", "gmbh", " ab", " a/s", " sa", " ag",
   "pharmaceuticals", "therapeutics", "biosciences", "biopharma",
   "biotech", "pharma", "oncology", "medicines", "biopharmaceuticals"]

/-- Name-pattern table of Company.infer_type_from_name: known pharma
companies without an obvious suffix. -/
def KNOWN_PHARMA : List String :=
  ["astrazeneca", "bristol-myers", "bristol myers", "novartis",
   "servier", "viriom", "roche", "sanofi", "pfizer", "merck",
   "regeneron", "genentech", "amgen", "gilead", "abbvie"]

/-- Company.infer_type_from_name. The sponsor_class argument is an optional
string; both None and the empty string are falsy in the source checks. -/
def Company.infer_type_from_name (name : String) (sponsor_class : Option String) : String :=
  let name_lower := pyLower name
  let fromClass : Option String :=
    if truthyStr sponsor_class then
      let scu := pyUpper (sponsor_class.getD "")
      if scu = "INDUSTRY" then some "industry"
      else if scu = "NIH" || scu = "FED" then some "government"
      else if scu = "OTHER_GOV" then some "government"
      else none
    else none
  match fromClass with
  | some t => t
  | none =>
    if INVESTIGATOR_PATTERNS.any (fun p => strContains name_lower p) then "investigator"
    else if GOV_PATTERNS.any (fun p => strContains name_lower p) then "government"
    else if NONPROFIT_PATTERNS.any (fun p => strContains name_lower p) then "nonprofit"
    else if ACADEMIC_PATTERNS.any (fun p => strContains name_lower p) then "academic"
    else if INDUSTRY_PATTERNS.any (fun p => strContains name_lower p) then "industry"
    else if KNOWN_PHARMA.any (fun p => strContains name_lower p) then "industry"
    else if truthyStr sponsor_class && pyUpper (sponsor_class.getD "") = "INDUSTRY" then "industry"
    else "other"

/-- ClinicalTrialsService._phase_to_stage. -/
def phase_to_stage (phase : Option String) : Option String :=
  match phase with
  | none => none
  | some p =>
    if p.isEmpty then none
    else
      let pl := pyLower p
      if strContains pl "phase 3" then some "phase3"
      else if strContains pl "phase 2" then some "phase2"
      else if strContains pl "phase 1" then some "phase1"
      else if strContains pl "phase 4" then some "approved"
      else if strContains pl "early" then some "phase1"
      else none

example : Company.infer_type_from_name "City of Hope" none = "academic" := by decide
example : Company.infer_type_from_name "Immunocore" none = "other" := by decide
example : Company.infer_type_from_name "Merck Sharp & Dohme LLC" (some "INDUSTRY") = "industry" := by decide
example : Company.infer_type_from_name "Merck Sharp & Dohme LLC" (some "") = "industry" := by decide
example : Company.infer_type_from_name "National Cancer Institute" (some "NIH") = "government" := by decide
example : Company.infer_type_from_name "IDEAYA Institute" (some "") = "academic" := by decide

/-! ## sqlite_service.py: table rows and database state -/

/-- Row of the companies table. -/
structure CompanyRow where
  name : String
  aliases : List String
  country : Option String
  public_flag : Option Bool
  tickers : List String
  cik : Option String
  status : Option String
  company_type : Option String
  evidence : List Evidence
  updated_at : String
deriving DecidableEq, Inhabited

/-- Row of the assets table. -/
structure AssetRow where
  name : String
  synonyms : List String
  modality : Option String
  targets : List String
  indications : List String
  stage_current : Option String
  modality_confidence : Option ℚ
  targets_confidence : Option ℚ
  evidence : List Evidence
  updated_at : String
deriving DecidableEq, Inhabited

/-- Row of the trials table. -/
structure TrialRow where
  title : String
  phase : Option String
  status : Option String
  start_date : Option String
  completion_date : Option String
  interventions : List String
  conditions : List String
  conditions_searchable : String
  sponsors : List String
  collaborators : List String
  enrollment : Option Int
  study_type : Option String
  brief_summary : Option String
  source_url : String
  evidence : List Evidence
  updated_at : String
deriving DecidableEq, Inhabited

/-- Row of the documents table. -/
structure DocumentRow where
  doc_type : String
  publisher : Option String
  url : String
  published_at : Option String
  retrieved_at : String
  text_hash : Option String
  updated_at : String
deriving DecidableEq, Inhabited

/-- Row of the deals table. -/
structure DealRow where
  deal_type : String
  announce_date : Option String
  summary : Option String
  status : Option String
  value_usd : Option ℚ
  evidence : List Evidence
  updated_at : String
deriving DecidableEq, Inhabited

/-- Row of the owns table. -/
structure OwnsRow where
  from_date : Option String
  to_date : Option String
  confidence : ℚ
  source : String
  is_current : Bool
  evidence : List EdgeEvidence
  user_confirmed : Bool
deriving DecidableEq, Inhabited

/-- Row of the licenses table. -/
structure LicensesRow where
  from_date : Option String
  to_date : Option String
  territory : Option String
  confidence : ℚ
  source : String
  evidence : List EdgeEvidence
deriving DecidableEq, Inhabited

/-- Row of the uses_as_comparator table (key part held in the map key). -/
structure ComparatorRow where
  evidence : List EdgeEvidence
deriving DecidableEq, Inhabited

/-- Row of the sponsors_trial table. -/
structure SponsorsTrialRow where
  role : String
  evidence : List EdgeEvidence
deriving DecidableEq, Inhabited

/-- Row of the participates_in_trial table. -/
structure ParticipatesRow where
  role : String
  evidence : List EdgeEvidence
deriving DecidableEq, Inhabited

/-- Row of the has_trial table. -/
structure HasTrialRow where
  evidence : List EdgeEvidence
deriving DecidableEq, Inhabited

/-- Row of the party_to table. -/
structure PartyToRow where
  role : String
  evidence : List EdgeEvidence
deriving DecidableEq, Inhabited

/-- Row of the covers table. -/
structure CoversRow where
  evidence : List EdgeEvidence
deriving DecidableEq, Inhabited

/-- Row of the asset_user_overrides table.  The targets column is TEXT:
none models SQL NULL, and some ts models the JSON text json.dumps(ts),
which is a non-empty (truthy) string even when ts is the empty list. -/
structure OverrideRow where
  modality : Option String
  targets : Option (List String)
  updated_at : String
deriving DecidableEq, Inhabited

/-- The whole SQLite database, one function-backed table per SQL table,
keyed by the SQL primary keys. -/
structure DB where
  companies : String → Option CompanyRow
  assets : String → Option AssetRow
  trials : String → Option TrialRow
  documents : String → Option DocumentRow
  deals : String → Option DealRow
  sponsors_trial : String × String → Option SponsorsTrialRow
  has_trial : String × String → Option HasTrialRow
  owns : String × String → Option OwnsRow
  party_to : String × String → Option PartyToRow
  covers : String × String → Option CoversRow
  participates_in_trial : String × String → Option ParticipatesRow
  licenses : String × String → Option LicensesRow
  uses_as_comparator : String × String × String → Option ComparatorRow
  asset_user_overrides : String → Option OverrideRow

/-- The empty database (freshly initialized schema). -/
def emptyDB : DB :=
  ⟨fun _ => none, fun _ => none, fun _ => none, fun _ => none, fun _ => none,
   fun _ => none, fun _ => none, fun _ => none, fun _ => none, fun _ => none,
   fun _ => none, fun _ => none, fun _ => none, fun _ => none⟩

/-- Point update of a function-backed table. -/
def upd [DecidableEq κ] (f : κ → Option α) (k : κ) (v : Option α) : κ → Option α :=
  fun x => if x = k then v else f x

/-! ## sqlite_service.py: service operations

Each method of SQLiteService becomes a DB → DB function; the operations
that stamp updated_at / build evidence take the wall-clock string now as
an argument. -/

/-- Module function _conditions_to_searchable of sqlite_service.py. -/
def conditions_to_searchable (conditions : List String) : String :=
  if conditions.isEmpty then ""
  else
    let combined := joinSpace conditions
    let replaced : String :=
      ⟨combined.data.map (fun c => if c.isAlphanum || c = '_' || isWs c then c else ' ')⟩
    joinSpace (pySplitWs (pyLower replaced))

/-- SQLiteService.upsert_company. -/
def upsert_company (c : Company) (now : String) (db : DB) : DB :=
  { db with companies := upd db.companies c.company_id (some
      { name := c.name, aliases := c.aliases, country := c.country,
        public_flag := c.public_flag, tickers := c.tickers, cik := c.cik,
        status := c.status, company_type := c.company_type,
        evidence := c.evidence, updated_at := now }) }

/-- SQLiteService.upsert_asset: reads the user override row first and lets
its modality (when not NULL) and targets (when the TEXT column is truthy,
which holds for every value set_asset_override ever writes) replace the
values carried by the write. -/
def upsert_asset (a : Asset) (now : String) (db : DB) : DB :=
  let override := db.asset_user_overrides a.asset_id
  let modality : Option String :=
    match override with
    | some o => match o.modality with | some m => some m | none => a.modality
    | none => a.modality
  let targets : List String :=
    match override with
    | some o => match o.targets with | some ts => ts | none => a.targets
    | none => a.targets
  { db with assets := upd db.assets a.asset_id (some
      { name := a.name, synonyms := a.synonyms, modality := modality,
        targets := targets, indications := a.indications,
        stage_current := a.stage_current,
        modality_confidence := a.modality_confidence,
        targets_confidence := a.targets_confidence,
        evidence := a.evidence, updated_at := now }) }

/-- SQLiteService.upsert_trial. -/
def upsert_trial (t : Trial) (now : String) (db : DB) : DB :=
  { db with trials := upd db.trials t.trial_id (some
      { title := t.title, phase := t.phase, status := t.status,
        start_date := t.start_date, completion_date := t.completion_date,
        interventions := t.interventions, conditions := t.conditions,
        conditions_searchable := conditions_to_searchable t.conditions,
        sponsors := t.sponsors, collaborators := t.collaborators,
        enrollment := t.enrollment, study_type := t.study_type,
        brief_summary := t.brief_summary, source_url := t.source_url,
        evidence := t.evidence, updated_at := now }) }

/-- SQLiteService.upsert_document. -/
def upsert_document (d : Document) (now : String) (db : DB) : DB :=
  { db with documents := upd db.documents d.doc_id (some
      { doc_type := d.doc_type, publisher := d.publisher, url := d.url,
        published_at := d.published_at, retrieved_at := d.retrieved_at,
        text_hash := d.text_hash, updated_at := now }) }

/-- SQLiteService.upsert_deal. -/
def upsert_deal (d : Deal) (now : String) (db : DB) : DB :=
  { db with deals := upd db.deals d.deal_id (some
      { deal_type := d.deal_type, announce_date := d.announce_date,
        summary := d.summary, status := d.status, value_usd := d.value_usd,
        evidence := d.evidence, updated_at := now }) }

/-- SQLiteService.create_sponsors_trial. -/
def create_sponsors_trial (rel : SponsorsTrial) (db : DB) : DB :=
  { db with sponsors_trial := upd db.sponsors_trial (rel.company_id, rel.trial_id) (some
      { role := rel.role, evidence := rel.evidence }) }

/-- SQLiteService.create_has_trial. -/
def create_has_trial (rel : HasTrial) (db : DB) : DB :=
  { db with has_trial := upd db.has_trial (rel.asset_id, rel.trial_id) (some
      { evidence := rel.evidence }) }

/-- SQLiteService.create_participates_in_trial. -/
def create_participates_in_trial (rel : ParticipatesInTrial) (db : DB) : DB :=
  { db with participates_in_trial := upd db.participates_in_trial (rel.company_id, rel.trial_id) (some
      { role := rel.role, evidence := rel.evidence }) }

/-- SQLiteService.create_licenses. -/
def create_licenses (rel : Licenses) (db : DB) : DB :=
  { db with licenses := upd db.licenses (rel.company_id, rel.asset_id) (some
      { from_date := rel.from_date, to_date := rel.to_date,
        territory := rel.territory, confidence := rel.confidence,
        source := rel.source, evidence := rel.evidence }) }

/-- SQLiteService.create_uses_as_comparator. -/
def create_uses_as_comparator (rel : UsesAsComparator) (db : DB) : DB :=
  { db with uses_as_comparator := upd db.uses_as_comparator
                                      (rel.company_id, rel.asset_id, rel.trial_id)
                                      (some { evidence := rel.evidence }) }

/-- SQLiteService.create_owns.  The user_confirmed=False path checks the
existing row first and returns without any write when that row is marked
user_confirmed; the user_confirmed=True path does an upsert that keeps the
date and is_current columns of a conflicting row. -/
def create_owns (rel : Owns) (user_confirmed : Bool) (db : DB) : DB :=
  if user_confirmed then
    match db.owns (rel.company_id, rel.asset_id) with
    | some old =>
      { db with owns := upd db.owns (rel.company_id, rel.asset_id) (some
          { old with confidence := rel.confidence, source := rel.source,
                     user_confirmed := true, evidence := rel.evidence }) }
    | none =>
      { db with owns := upd db.owns (rel.company_id, rel.asset_id) (some
          { from_date := rel.from_date, to_date := rel.to_date,
            confidence := rel.confidence, source := rel.source,
            is_current := rel.is_current, evidence := rel.evidence,
            user_confirmed := true }) }
  else
    match db.owns (rel.company_id, rel.asset_id) with
    | some row =>
      if row.user_confirmed then db
      else
        { db with owns := upd db.owns (rel.company_id, rel.asset_id) (some
            { from_date := rel.from_date, to_date := rel.to_date,
              confidence := rel.confidence, source := rel.source,
              is_current := rel.is_current, evidence := rel.evidence,
              user_confirmed := false }) }
    | none =>
      { db with owns := upd db.owns (rel.company_id, rel.asset_id) (some
          { from_date := rel.from_date, to_date := rel.to_date,
            confidence := rel.confidence, source := rel.source,
            is_current := rel.is_current, evidence := rel.evidence,
            user_confirmed := false }) }

/-- SQLiteService._clear_company_asset_relationships. -/
def clear_company_asset_relationships (company_id asset_id : String) (db : DB) : DB :=
  { db with
    owns := fun k => if k = (company_id, asset_id) then none else db.owns k,
    licenses := fun k => if k = (company_id, asset_id) then none else db.licenses k,
    uses_as_comparator := fun k =>
      if k.1 = company_id ∧ k.2.1 = asset_id then none else db.uses_as_comparator k }

/-- SQLiteService.upsert_owns_user_confirmed. -/
def upsert_owns_user_confirmed (company_id asset_id : String) (confidence : ℚ)
    (now : String) (db : DB) : DB :=
  let db1 := clear_company_asset_relationships company_id asset_id db
  let ev : List EdgeEvidence := [⟨"user_confirmed", none, none, confidence, now⟩]
  match db1.owns (company_id, asset_id) with
  | some old =>
    { db1 with owns := upd db1.owns (company_id, asset_id) (some
        { old with confidence := confidence, source := "user_confirmed",
                   user_confirmed := true, evidence := ev }) }
  | none =>
    { db1 with owns := upd db1.owns (company_id, asset_id) (some
        { from_date := none, to_date := none, confidence := confidence,
          source := "user_confirmed", is_current := true, evidence := ev,
          user_confirmed := true }) }

/-- SQLiteService.upsert_licenses_user_confirmed. -/
def upsert_licenses_user_confirmed (company_id asset_id : String) (confidence : ℚ)
    (now : String) (db : DB) : DB :=
  let db1 := clear_company_asset_relationships company_id asset_id db
  let ev : List EdgeEvidence := [⟨"user_confirmed", none, none, confidence, now⟩]
  match db1.licenses (company_id, asset_id) with
  | some old =>
    { db1 with licenses := upd db1.licenses (company_id, asset_id) (some
        { old with confidence := confidence, source := "user_confirmed", evidence := ev }) }
  | none =>
    { db1 with licenses := upd db1.licenses (company_id, asset_id) (some
        { from_date := none, to_date := none, territory := none,
          confidence := confidence, source := "user_confirmed", evidence := ev }) }

/-- SQLiteService.upsert_uses_as_comparator_user_confirmed (the source
defaults trial_id to the string user_set). -/
def upsert_uses_as_comparator_user_confirmed (company_id asset_id trial_id : String)
    (now : String) (db : DB) : DB :=
  let db1 := clear_company_asset_relationships company_id asset_id db
  let ev : List EdgeEvidence := [⟨"user_confirmed", none, none, 1, now⟩]
  { db1 with uses_as_comparator := upd db1.uses_as_comparator
                                       (company_id, asset_id, trial_id)
                                       (some { evidence := ev }) }

/-- SQLiteService.set_asset_override. -/
def set_asset_override (asset_id : String) (modality : Option String)
    (targets : Option (List String)) (now : String) (db : DB) : DB :=
  let r := db.asset_user_overrides asset_id
  let cur_mod : Option String := match r with | some row => row.modality | none => none
  let cur_tgt : List String :=
    match r with
    | some row => (match row.targets with | some ts => ts | none => [])
    | none => []
  let final_mod : Option String := match modality with | some m => some m | none => cur_mod
  let final_tgt : List String := match targets with | some ts => ts | none => cur_tgt
  { db with asset_user_overrides := upd db.asset_user_overrides asset_id (some
      { modality := final_mod, targets := some final_tgt, updated_at := now }) }

/-- SQLiteService.clear_database: deletes every row of the thirteen node
and edge tables; the asset_user_overrides table is not touched. -/
def clear_database (db : DB) : DB :=
  { db with
    sponsors_trial := fun _ => none,
    has_trial := fun _ => none,
    owns := fun _ => none,
    party_to := fun _ => none,
    covers := fun _ => none,
    participates_in_trial := fun _ => none,
    licenses := fun _ => none,
    uses_as_comparator := fun _ => none,
    companies := fun _ => none,
    assets := fun _ => none,
    trials := fun _ => none,
    documents := fun _ => none,
    deals := fun _ => none }

/-! ## sqlite_service.py: indication term matching

get_indication_graph and get_landscape_stats build the identical WHERE
clause over LOWER(COALESCE(conditions_searchable, ...)): an OR over the
input terms with a nonempty word list, each term contributing an AND of
one LIKE percent-word-percent test per word. -/

/-- Translate one SQL LIKE pattern character (wildcards percent and
underscore, everything else a case-insensitive literal). -/
def likeCharRe (c : Char) : Re :=
  if c = '%' then .starCls (fun _ => true)
  else if c = '_' then .cls (fun _ => true)
  else ciCls c

/-- SQLite LIKE as a whole-string match. -/
def sqlLike (pat : String) (s : String) : Bool :=
  (reMatch (reSeqL (pat.data.map likeCharRe)) s.data
    (fun r => if r.isEmpty then some r else none)).isSome

/-- Words of one indication term as the query builders compute them. -/
def term_words (term : String) : List String :=
  (pySplitWs (pyLower term)).filter (fun w => !w.isEmpty)

/-- The trial-selection predicate generated by get_indication_graph (and by
the get_landscape_stats aggregation queries) evaluated on the stored
conditions_searchable value of a trial row. -/
def trial_matches_terms (indication_terms : List String) (conditions_searchable : String) : Bool :=
  indication_terms.any (fun term =>
    let ws := term_words term
    !ws.isEmpty && ws.all (fun w => sqlLike ("%" ++ w ++ "%") (pyLower conditions_searchable)))

/-- Modelled from the spec: the match semantics as the claim states it —
a trial matches when at least one input term has every one of its
whitespace-separated lowercase words occurring (as a substring) in the
lowercased derived searchable-condition string. -/
def words_all_occur_spec (indication_terms : List String) (conditions_searchable : String) : Bool :=
  indication_terms.any (fun term =>
    let ws := term_words term
    !ws.isEmpty && ws.all (fun w => listInfixOf (pyLower w).data (pyLower conditions_searchable).data))

example : conditions_to_searchable ["Melanoma, Uveal"] = "melanoma uveal" := by decide
example : trial_matches_terms ["uveal melanoma"] (conditions_to_searchable ["Melanoma, Uveal"]) = true := by decide
example : trial_matches_terms ["a_c"] (conditions_to_searchable ["abc"]) = true := by decide
example : words_all_occur_spec ["a_c"] (conditions_to_searchable ["abc"]) = false := by decide

/-! ## clinicaltrials_service.py: ingest_for_indication

The per-record body of ingest_for_indication is embedded as explicit state
passing.  A record of the fetched list either parses to a ParsedRecord
(the tuple parse_trial returns, plus the lead sponsor class that the loop
re-reads from the raw record) or raises, modelled as Except.error.  Every
store write can raise a storage error; this is modelled by a fault oracle
consulted at each write in program order — a faulted write mutates nothing
(the per-operation connection never commits) and aborts the record, whose
partial effects and counter increments remain, exactly as the source
try/except: continue behaves. -/

/-- Per-run statistics counters of ingest_for_indication. -/
structure Stats where
  trials : Nat
  companies : Nat
  assets : Nat
  documents : Nat
  sponsor_relations : Nat
  asset_trial_relations : Nat
  ownership_relations : Nat
deriving DecidableEq, Inhabited

/-- All counters zero. -/
def Stats.zero : Stats := ⟨0, 0, 0, 0, 0, 0, 0⟩

/-- What NormalizationService.enrich_asset returns. -/
structure EnrichResult where
  modality : Option String
  targets : List String
  modality_confidence : Option ℚ
  targets_confidence : Option ℚ
deriving DecidableEq, Inhabited

/-- Ingestion context: the md5 hexdigest primitive h, the heuristic
enrichment component (regex patterns plus optional LLM; it only produces
asset attribute fields), and the wall clock. -/
structure IngestCtx where
  h : String → String
  enrich : String → List String → String → EnrichResult
  now : String

/-- A parsed trial record: the tuple parse_trial returns plus the lead
sponsor class string the ingestion loop reads from the raw record. -/
structure ParsedRecord where
  trial : Trial
  doc : Document
  interventions : List String
  sponsors : List String
  collaborators : List String
  lead_sponsor_class : String

/-- Mutable run state: the store, the statistics dict, the two within-run
dedup sets, and the fault oracle with its position. -/
structure St where
  db : DB
  stats : Stats
  seen_companies : List String
  seen_assets : List String
  faults : Nat → Bool
  ctr : Nat

/-- Run one store write: if the oracle faults this position the write
raises (mutating nothing); otherwise it is applied. -/
def tryWrite (f : DB → DB) (st : St) : St × Bool :=
  if st.faults st.ctr then ({ st with ctr := st.ctr + 1 }, false)
  else ({ st with db := f st.db, ctr := st.ctr + 1 }, true)

/-- The stats sponsor_relations += 1 update. -/
def bump_sponsor_relations (st : St) : St :=
  { st with stats := { st.stats with sponsor_relations := st.stats.sponsor_relations + 1 } }

/-- The stats asset_trial_relations += 1 update. -/
def bump_asset_trial_relations (st : St) : St :=
  { st with stats := { st.stats with asset_trial_relations := st.stats.asset_trial_relations + 1 } }

/-- The stats trials += 1; documents += 1 update. -/
def bump_trials_documents (st : St) : St :=
  { st with stats :=
      { st.stats with trials := st.stats.trials + 1, documents := st.stats.documents + 1 } }

/-- The sponsor class handed to type inference for the sponsor at a given
position of sponsors + collaborators: lead sponsors get the lead sponsor
class, collaborators get None. -/
def sponsor_class_for (p : ParsedRecord) (idx : Nat) : Option String :=
  if idx < p.sponsors.length then some p.lead_sponsor_class else none

/-- The company type the loop infers for the sponsor at a position. -/
def sponsor_company_type (p : ParsedRecord) (idx : Nat) (name : String) : String :=
  Company.infer_type_from_name name (sponsor_class_for p idx)

/-- The role the loop writes on the trial edge of the sponsor at a
position (site for academic-like types). -/
def sponsor_role (p : ParsedRecord) (idx : Nat) (name : String) : String :=
  if sponsor_company_type p idx name = "academic" || sponsor_company_type p idx name = "site"
  then "site"
  else if idx < p.sponsors.length then "lead_sponsor" else "collaborator"

/-- One sponsor mention: upsert the Company row unless its identity was
already seen in this run, then record it as seen and count it. -/
def sponsor_company_step (ctx : IngestCtx) (p : ParsedRecord)
    (sponsor_name company_id company_type : String) (st : St) : St × Bool :=
  if company_id ∈ st.seen_companies then (st, true)
  else
    let company : Company :=
      { company_id := company_id, name := sponsor_name, aliases := [],
        country := none, public_flag := none, tickers := [], cik := none,
        status := none, company_type := some company_type,
        evidence := [⟨"clinicaltrials", some p.trial.source_url,
                      some p.trial.trial_id, 1, ctx.now, none⟩] }
    let r := tryWrite (upsert_company company ctx.now) st
    if r.2 then
      ({ r.1 with seen_companies := company_id :: r.1.seen_companies,
                  stats := { r.1.stats with companies := r.1.stats.companies + 1 } }, true)
    else (r.1, false)

/-- One sponsor mention: the trial edge — SponsorsTrial for industry,
ParticipatesInTrial (role site for academic-like types) otherwise. -/
def sponsor_edge_step (ctx : IngestCtx) (p : ParsedRecord)
    (company_id company_type role : String) (st : St) : St × Bool :=
  if company_type = "industry" then
    tryWrite (create_sponsors_trial
      { company_id := company_id, trial_id := p.trial.trial_id, role := role,
        evidence := [⟨"clinicaltrials", some p.trial.source_url,
                      some p.trial.trial_id, 1, ctx.now⟩] }) st
  else
    tryWrite (create_participates_in_trial
      { company_id := company_id, trial_id := p.trial.trial_id,
        role := if company_type = "academic" || company_type = "site" then "site" else role,
        evidence := [⟨"clinicaltrials", some p.trial.source_url,
                      some p.trial.trial_id, 1, ctx.now⟩] }) st

/-- The sponsor/collaborator loop of ingest_for_indication (enumerate over
sponsors + collaborators with running index i). -/
def process_sponsors (ctx : IngestCtx) (p : ParsedRecord) :
    Nat → List String → St → St × Bool
  | _, [], st => (st, true)
  | i, sponsor_name :: rest, st =>
    if sponsor_name.isEmpty then process_sponsors ctx p (i + 1) rest st
    else
      let company_id := Company.generate_id ctx.h sponsor_name
      let company_type := sponsor_company_type p i sponsor_name
      let step1 := sponsor_company_step ctx p sponsor_name company_id company_type st
      if !step1.2 then (step1.1, false)
      else
        let role := if i < p.sponsors.length then "lead_sponsor" else "collaborator"
        let step2 := sponsor_edge_step ctx p company_id company_type role step1.1
        if !step2.2 then (step2.1, false)
        else process_sponsors ctx p (i + 1) rest (bump_sponsor_relations step2.1)

/-- One intervention: build and upsert the Asset row unless its identity
was already seen in this run (known registry data preferred over the
pattern-detected enrichment), then record it as seen and count it. -/
def intervention_asset_step (ctx : IngestCtx) (p : ParsedRecord)
    (normalized : NormalizedIntervention) (asset_id : String)
    (known_info : KnownAssetEnrichment) (st : St) : St × Bool :=
  if asset_id ∈ st.seen_assets then (st, true)
  else
    let enriched := ctx.enrich normalized.name p.trial.conditions p.trial.source_url
    let final_modality : Option String :=
      if truthyStr known_info.modality then known_info.modality else enriched.modality
    let final_targets : List String :=
      if known_info.targets.isEmpty then enriched.targets else known_info.targets
    let synonyms : List String :=
      match known_info.brand_name with
      | some brand =>
        if brand.isEmpty then normalized.synonyms
        else if (normalized.synonyms.map pyLower).contains (pyLower brand) then
          normalized.synonyms
        else normalized.synonyms ++ [brand]
      | none => normalized.synonyms
    let asset : Asset :=
      { asset_id := asset_id, name := normalized.name, synonyms := synonyms,
        modality := final_modality, targets := final_targets,
        indications := p.trial.conditions.take 5,
        stage_current := phase_to_stage p.trial.phase,
        evidence := [⟨"clinicaltrials", some p.trial.source_url,
                      some p.trial.trial_id, 1, ctx.now, none⟩],
        modality_confidence :=
          if truthyStr known_info.modality then some (95/100 : ℚ)
          else enriched.modality_confidence,
        targets_confidence :=
          if !known_info.targets.isEmpty then some (95/100 : ℚ)
          else enriched.targets_confidence }
    let r := tryWrite (upsert_asset asset ctx.now) st
    if r.2 then
      ({ r.1 with seen_assets := asset_id :: r.1.seen_assets,
                  stats := { r.1.stats with assets := r.1.stats.assets + 1 } }, true)
    else (r.1, false)

/-- The stats ownership_relations counter increment. -/
def bump_ownership_relations (st : St) : St :=
  { st with stats := { st.stats with
      ownership_relations := st.stats.ownership_relations + 1 } }

/-- The proprietorship verdict of the intervention loop: exact equality of
normalized lowercased names when the registry knows an owner, the
substring heuristic is_proprietary_to_sponsor otherwise. -/
def ingest_is_proprietary (normalized : NormalizedIntervention)
    (known_owner : Option String) (lead_sponsor_name : String) : Bool :=
  if truthyStr known_owner then
    pyLower (normalize_company_name (known_owner.getD "")) =
      pyLower (normalize_company_name lead_sponsor_name)
  else is_proprietary_to_sponsor normalized.name lead_sponsor_name

/-- One intervention: the ownership / comparator resolution against the
lead sponsor (nothing is written when the record has no sponsors).  The
loop replaces the is_proprietary_to_sponsor verdict with exact equality of
normalized names whenever the registry knows an owner, and the comparator
branch additionally requires an industry-typed lead sponsor. -/
def intervention_ownership_step (ctx : IngestCtx) (p : ParsedRecord)
    (normalized : NormalizedIntervention) (asset_id : String)
    (known_info : KnownAssetEnrichment) (st : St) : St × Bool :=
  match p.sponsors with
  | [] => (st, true)
  | lead_sponsor_name :: _ =>
    let lead_sponsor_id := Company.generate_id ctx.h lead_sponsor_name
    let known_owner := known_info.known_owner
    if ingest_is_proprietary normalized known_owner lead_sponsor_name then
      let owns : Owns :=
        { company_id := lead_sponsor_id, asset_id := asset_id,
          from_date := none, to_date := none,
          confidence := if truthyStr known_owner then (9/10 : ℚ) else (7/10 : ℚ),
          source := if truthyStr known_owner then "confirmed_owner" else "inferred_from_trial",
          is_current := true,
          evidence := [⟨if truthyStr known_owner then "known_data" else "inferred",
                        some p.trial.source_url, some p.trial.trial_id,
                        if truthyStr known_owner then (9/10 : ℚ) else (7/10 : ℚ), ctx.now⟩] }
      let r := tryWrite (create_owns owns false) st
      if r.2 then (bump_ownership_relations r.1, true)
      else (r.1, false)
    else
      if !known_info.is_generic && truthyStr known_owner then
        if Company.infer_type_from_name lead_sponsor_name (some p.lead_sponsor_class) = "industry" then
          let r := tryWrite (create_uses_as_comparator
            { company_id := lead_sponsor_id, asset_id := asset_id,
              trial_id := p.trial.trial_id,
              evidence := [⟨"inferred_comparator", some p.trial.source_url,
                            some p.trial.trial_id, (8/10 : ℚ), ctx.now⟩] }) st
          if r.2 then (bump_ownership_relations r.1, true)
          else (r.1, false)
        else (st, true)
      else (st, true)

/-- The intervention loop of ingest_for_indication: normalize, enrich,
upsert the asset, link it to the trial, then run the ownership /
comparator resolution against the lead sponsor. -/
def process_interventions (ctx : IngestCtx) (p : ParsedRecord) :
    List String → St → St × Bool
  | [], st => (st, true)
  | intervention_name :: rest, st =>
    if intervention_name.isEmpty then process_interventions ctx p rest st
    else
      match normalize_intervention intervention_name with
      | none => process_interventions ctx p rest st
      | some normalized =>
        let asset_id := Asset.generate_id ctx.h normalized.name
        let known_info := enrich_asset_with_known_data normalized.name
        let step1 := intervention_asset_step ctx p normalized asset_id known_info st
        if !step1.2 then (step1.1, false)
        else
          let step2 := tryWrite (create_has_trial
            { asset_id := asset_id, trial_id := p.trial.trial_id,
              evidence := [⟨"clinicaltrials", some p.trial.source_url,
                            some p.trial.trial_id, 1, ctx.now⟩] }) step1.1
          if !step2.2 then (step2.1, false)
          else
            let st3 := bump_asset_trial_relations step2.1
            let step4 := intervention_ownership_step ctx p normalized asset_id known_info st3
            if !step4.2 then (step4.1, false)
            else process_interventions ctx p rest step4.1

/-- The body of the per-record try block: upsert trial and document, count
them, then the sponsor loop, then the intervention loop. -/
def process_record_steps (ctx : IngestCtx) (p : ParsedRecord) (st : St) : St × Bool :=
  let step1 := tryWrite (upsert_trial p.trial ctx.now) st
  if !step1.2 then (step1.1, false)
  else
    let step2 := tryWrite (upsert_document p.doc ctx.now) step1.1
    if !step2.2 then (step2.1, false)
    else
      let st3 := bump_trials_documents step2.1
      let step4 := process_sponsors ctx p 0 (p.sponsors ++ p.collaborators) st3
      if !step4.2 then (step4.1, false)
      else process_interventions ctx p p.interventions step4.1

/-- One iteration of the record loop: a record that fails to parse, or any
raise inside its processing, leaves the Boolean false; the state carries
whatever was committed before the raise. -/
def process_record (ctx : IngestCtx) (r : Except Unit ParsedRecord) (st : St) : St × Bool :=
  match r with
  | .error _ => (st, false)
  | .ok p => process_record_steps ctx p st

/-- The record loop of ingest_for_indication: the try/except swallows the
failure of each record and the loop continues with the next record. -/
def ingest_records (ctx : IngestCtx) : List (Except Unit ParsedRecord) → St → St
  | [], st => st
  | r :: rs, st => ingest_records ctx rs (process_record ctx r st).1

/-- Fresh run state over a given database and fault oracle. -/
def mkSt (db : DB) (faults : Nat → Bool) : St :=
  { db := db, stats := Stats.zero, seen_companies := [], seen_assets := [],
    faults := faults, ctr := 0 }

/-- The fault-free oracle (normal operation). -/
def noFaults : Nat → Bool := fun _ => false

/-! ## Store-level lemmas -/

/-- upsert_asset never touches the asset_user_overrides table. -/
theorem upsert_asset_keeps_overrides (a : Asset) (now : String) (db : DB) :
    (upsert_asset a now db).asset_user_overrides = db.asset_user_overrides := rfl

/-- A run of automated ingestion upserts of assets, each with its own
updated_at stamp. -/
def apply_upserts (batch : List (Asset × String)) (db : DB) : DB :=
  batch.foldl (fun d q => upsert_asset q.1 q.2 d) db

/-- A whole batch of automated asset upserts never touches the
asset_user_overrides table. -/
theorem apply_upserts_keeps_overrides (batch : List (Asset × String)) (db : DB) :
    (apply_upserts batch db).asset_user_overrides = db.asset_user_overrides := by
  induction batch generalizing db with
  | nil => rfl
  | cons q rest ih =>
    exact (ih (upsert_asset q.1 q.2 db)).trans (upsert_asset_keeps_overrides q.1 q.2 db)

/-- Claim C1: override protection.  After a user call to
set_asset_override that sets the modality (respectively the targets) of an
asset, every automated upsert_asset for that asset — also after further
automated upserts in between — stores the override modality (respectively
the override targets), whatever modality/targets the automated write
carries. -/
theorem override_protection
    (s : DB) (aid m : String) (tgtArg : Option (List String)) (modArg : Option String)
    (ts : List String) (batch1 batch2 : List (Asset × String)) (a1 a2 : Asset)
    (now1 now2 now0 : String) (ha1 : a1.asset_id = aid) (ha2 : a2.asset_id = aid) :
    ((upsert_asset a1 now1
        (apply_upserts batch1 (set_asset_override aid (some m) tgtArg now0 s))).assets aid).map
      (fun r => r.modality) = some (some m)
    ∧ ((upsert_asset a2 now2
        (apply_upserts batch2 (set_asset_override aid modArg (some ts) now0 s))).assets aid).map
      (fun r => r.targets) = some ts := by
  constructor
  · subst ha1
    have h1 := apply_upserts_keeps_overrides batch1 (set_asset_override a1.asset_id (some m) tgtArg now0 s)
    simp only [upsert_asset, upd]
    rw [h1]
    simp [set_asset_override, upd]
  · subst ha2
    have h2 := apply_upserts_keeps_overrides batch2 (set_asset_override a2.asset_id modArg (some ts) now0 s)
    simp only [upsert_asset, upd]
    rw [h2]
    simp [set_asset_override, upd]

/-- Witness for C1 at a concrete input: override modality antibody then
automated upsert with small_molecule keeps antibody; override targets then
automated upsert keeps the override target list. -/
theorem override_protection_witness :
    ((upsert_asset ⟨"a1", "pembrolizumab", [], some "small_molecule", [], [], none, [], some (8/10), some (8/10)⟩ "T2"
        (apply_upserts [] (set_asset_override "a1" (some "antibody") none "T0" emptyDB))).assets "a1").map
      (fun r => r.modality) = some (some "antibody")
    ∧ ((upsert_asset ⟨"a1", "pembrolizumab", [], none, ["LAG-3"], [], none, [], none, none⟩ "T2"
        (apply_upserts [] (set_asset_override "a1" none (some ["PD-1"]) "T0" emptyDB))).assets "a1").map
      (fun r => r.targets) = some ["PD-1"] :=
  override_protection emptyDB "a1" "antibody" none none ["PD-1"] [] []
    ⟨"a1", "pembrolizumab", [], some "small_molecule", [], [], none, [], some (8/10), some (8/10)⟩
    ⟨"a1", "pembrolizumab", [], none, ["LAG-3"], [], none, [], none, none⟩
    "T2" "T2" "T0" rfl rfl

/-- Claim C2 (counterexample): the exclusivity property quantified over all
graph-store edge operations fails — from the empty store, an automated
create_owns followed by an automated create_licenses leaves both an Owns
row and a Licenses row for the same (company, asset) pair, so two of the
three kinds exist at once. -/
theorem exclusivity_all_ops_counterexample :
    (((create_licenses ⟨"c1", "a1", none, none, none, 1/2, "inferred", []⟩
        (create_owns ⟨"c1", "a1", none, none, 1/2, "inferred", true, []⟩ false emptyDB)).owns
        ("c1", "a1")).isSome = true)
    ∧ (((create_licenses ⟨"c1", "a1", none, none, none, 1/2, "inferred", []⟩
        (create_owns ⟨"c1", "a1", none, none, 1/2, "inferred", true, []⟩ false emptyDB)).licenses
        ("c1", "a1")).isSome = true) := by
  constructor <;> rfl

/-- Claim C2 (amended): each user-confirmed setter first deletes all three
relationship kinds for the pair and then inserts its own kind, so right
after any user-confirmed setter exactly one of Owns / Licenses /
UsesAsComparator exists for that (company, asset) pair; the automated
create operations do not maintain this exclusivity. -/
theorem user_confirmed_setters_exclusive (db : DB) (c a : String) (conf : ℚ) (t now : String) :
    (((upsert_owns_user_confirmed c a conf now db).owns (c, a)).isSome = true
      ∧ (upsert_owns_user_confirmed c a conf now db).licenses (c, a) = none
      ∧ ∀ tid, (upsert_owns_user_confirmed c a conf now db).uses_as_comparator (c, a, tid) = none)
    ∧ ((upsert_licenses_user_confirmed c a conf now db).owns (c, a) = none
      ∧ ((upsert_licenses_user_confirmed c a conf now db).licenses (c, a)).isSome = true
      ∧ ∀ tid, (upsert_licenses_user_confirmed c a conf now db).uses_as_comparator (c, a, tid) = none)
    ∧ ((upsert_uses_as_comparator_user_confirmed c a t now db).owns (c, a) = none
      ∧ (upsert_uses_as_comparator_user_confirmed c a t now db).licenses (c, a) = none
      ∧ ((upsert_uses_as_comparator_user_confirmed c a t now db).uses_as_comparator (c, a, t)).isSome = true
      ∧ ∀ tid, tid ≠ t →
          (upsert_uses_as_comparator_user_confirmed c a t now db).uses_as_comparator (c, a, tid) = none) := by
  refine ⟨⟨?_, ?_, fun tid => ?_⟩, ⟨?_, ?_, fun tid => ?_⟩, ⟨?_, ?_, ?_, fun tid hne => ?_⟩⟩ <;>
    simp [upsert_owns_user_confirmed, upsert_licenses_user_confirmed,
          upsert_uses_as_comparator_user_confirmed,
          clear_company_asset_relationships, upd, *]

/-- Witness for C2 (amended) at a concrete input. -/
theorem user_confirmed_setters_exclusive_witness :
    ((upsert_owns_user_confirmed "c1" "a1" 1 "T" emptyDB).owns ("c1", "a1")).isSome = true
    ∧ (upsert_uses_as_comparator_user_confirmed "c1" "a1" "user_set" "T" emptyDB).uses_as_comparator
        ("c1", "a1", "NCT1") = none :=
  ⟨(user_confirmed_setters_exclusive emptyDB "c1" "a1" 1 "user_set" "T").1.1,
   (user_confirmed_setters_exclusive emptyDB "c1" "a1" 1 "user_set" "T").2.2.2.2.2 "NCT1" (by decide)⟩

/-- Claim C3: an automated (non user-confirmed) create_owns call on a pair
whose stored Owns row is marked user_confirmed returns before writing
anything, leaving the entire store — in particular that row with its
confidence, source, is_current, evidence and user_confirmed flag —
unchanged. -/
theorem user_confirmed_owns_protected
    (db : DB) (rel : Owns) (row : OwnsRow)
    (hrow : db.owns (rel.company_id, rel.asset_id) = some row)
    (huc : row.user_confirmed = true) :
    create_owns rel false db = db := by
  simp [create_owns, hrow, huc]

/-- Witness for C3 at a concrete input. -/
theorem user_confirmed_owns_protected_witness :
    create_owns ⟨"c1", "a1", none, none, 7/10, "inferred_from_trial", true, []⟩ false
      (upsert_owns_user_confirmed "c1" "a1" 1 "T" emptyDB)
    = upsert_owns_user_confirmed "c1" "a1" 1 "T" emptyDB :=
  user_confirmed_owns_protected (upsert_owns_user_confirmed "c1" "a1" 1 "T" emptyDB)
    ⟨"c1", "a1", none, none, 7/10, "inferred_from_trial", true, []⟩
    ⟨none, none, 1, "user_confirmed", true, [⟨"user_confirmed", none, none, 1, "T"⟩], true⟩
    rfl rfl

/-- Claim C9: clear_database deletes every row of the thirteen node and
edge tables but leaves asset_user_overrides untouched, so a previously set
modality override survives a full clear and is re-applied by the first
upsert_asset of a re-ingestion. -/
theorem clear_database_spares_overrides
    (s : DB) (aid m : String) (o : OverrideRow) (a : Asset) (now : String)
    (ha : a.asset_id = aid) (ho : s.asset_user_overrides aid = some o)
    (hm : o.modality = some m) :
    (clear_database s).asset_user_overrides = s.asset_user_overrides
    ∧ (∀ k, (clear_database s).companies k = none)
    ∧ (∀ k, (clear_database s).assets k = none)
    ∧ (∀ k, (clear_database s).trials k = none)
    ∧ (∀ k, (clear_database s).documents k = none)
    ∧ (∀ k, (clear_database s).deals k = none)
    ∧ (∀ k, (clear_database s).sponsors_trial k = none)
    ∧ (∀ k, (clear_database s).has_trial k = none)
    ∧ (∀ k, (clear_database s).owns k = none)
    ∧ (∀ k, (clear_database s).party_to k = none)
    ∧ (∀ k, (clear_database s).covers k = none)
    ∧ (∀ k, (clear_database s).participates_in_trial k = none)
    ∧ (∀ k, (clear_database s).licenses k = none)
    ∧ (∀ k, (clear_database s).uses_as_comparator k = none)
    ∧ ((upsert_asset a now (clear_database s)).assets aid).map (fun r => r.modality)
        = some (some m) := by
  refine ⟨rfl, fun k => rfl, fun k => rfl, fun k => rfl, fun k => rfl, fun k => rfl,
          fun k => rfl, fun k => rfl, fun k => rfl, fun k => rfl, fun k => rfl,
          fun k => rfl, fun k => rfl, fun k => rfl, ?_⟩
  subst ha
  have hco : (clear_database s).asset_user_overrides a.asset_id = some o := ho
  simp [upsert_asset, upd, hco, hm]

/-- Witness for C9 at a concrete input. -/
theorem clear_database_spares_overrides_witness :
    ((clear_database (set_asset_override "a1" (some "antibody") none "T0" emptyDB)).asset_user_overrides
      = (set_asset_override "a1" (some "antibody") none "T0" emptyDB).asset_user_overrides)
    ∧ (∀ k, (clear_database (set_asset_override "a1" (some "antibody") none "T0" emptyDB)).companies k = none)
    ∧ (∀ k, (clear_database (set_asset_override "a1" (some "antibody") none "T0" emptyDB)).assets k = none)
    ∧ (∀ k, (clear_database (set_asset_override "a1" (some "antibody") none "T0" emptyDB)).trials k = none)
    ∧ (∀ k, (clear_database (set_asset_override "a1" (some "antibody") none "T0" emptyDB)).documents k = none)
    ∧ (∀ k, (clear_database (set_asset_override "a1" (some "antibody") none "T0" emptyDB)).deals k = none)
    ∧ (∀ k, (clear_database (set_asset_override "a1" (some "antibody") none "T0" emptyDB)).sponsors_trial k = none)
    ∧ (∀ k, (clear_database (set_asset_override "a1" (some "antibody") none "T0" emptyDB)).has_trial k = none)
    ∧ (∀ k, (clear_database (set_asset_override "a1" (some "antibody") none "T0" emptyDB)).owns k = none)
    ∧ (∀ k, (clear_database (set_asset_override "a1" (some "antibody") none "T0" emptyDB)).party_to k = none)
    ∧ (∀ k, (clear_database (set_asset_override "a1" (some "antibody") none "T0" emptyDB)).covers k = none)
    ∧ (∀ k, (clear_database (set_asset_override "a1" (some "antibody") none "T0" emptyDB)).participates_in_trial k = none)
    ∧ (∀ k, (clear_database (set_asset_override "a1" (some "antibody") none "T0" emptyDB)).licenses k = none)
    ∧ (∀ k, (clear_database (set_asset_override "a1" (some "antibody") none "T0" emptyDB)).uses_as_comparator k = none)
    ∧ ((upsert_asset ⟨"a1", "pembrolizumab", [], some "small_molecule", [], [], none, [], none, none⟩ "T2"
          (clear_database (set_asset_override "a1" (some "antibody") none "T0" emptyDB))).assets "a1").map
        (fun r => r.modality) = some (some "antibody") :=
  clear_database_spares_overrides (set_asset_override "a1" (some "antibody") none "T0" emptyDB)
    "a1" "antibody" ⟨some "antibody", some [], "T0"⟩
    ⟨"a1", "pembrolizumab", [], some "small_molecule", [], [], none, [], none, none⟩
    "T2" rfl rfl rfl

/-- Claim C10: with a user override row present, an automated upsert_asset
still overwrites name, synonyms, indications, stage_current,
modality_confidence, targets_confidence and evidence with the values the
automated write carries; only the modality column (when the override
modality is set) and the targets column (when the override targets text is
set, which holds for every row set_asset_override writes) take the
override values. -/
theorem automated_fields_not_protected
    (db : DB) (a : Asset) (o : OverrideRow) (now : String)
    (ho : db.asset_user_overrides a.asset_id = some o) :
    (upsert_asset a now db).assets a.asset_id = some
      { name := a.name, synonyms := a.synonyms,
        modality := match o.modality with | some m => some m | none => a.modality,
        targets := match o.targets with | some ts => ts | none => a.targets,
        indications := a.indications, stage_current := a.stage_current,
        modality_confidence := a.modality_confidence,
        targets_confidence := a.targets_confidence,
        evidence := a.evidence, updated_at := now } := by
  simp [upsert_asset, upd, ho]

/-- Witness for C10 at a concrete input: with an override on modality and
targets, the automated write keeps its own confidences, synonyms,
indications, stage, name and evidence. -/
theorem automated_fields_not_protected_witness :
    (upsert_asset ⟨"a1", "nameB", ["synB"], some "small_molecule", ["tgtB"], ["indB"], some "phase2",
        [], some (8/10), some (7/10)⟩ "T2"
      (set_asset_override "a1" (some "antibody") (some ["PD-1"]) "T0" emptyDB)).assets "a1" = some
      { name := "nameB", synonyms := ["synB"], modality := some "antibody",
        targets := ["PD-1"], indications := ["indB"], stage_current := some "phase2",
        modality_confidence := some (8/10), targets_confidence := some (7/10),
        evidence := [], updated_at := "T2" } :=
  automated_fields_not_protected (set_asset_override "a1" (some "antibody") (some ["PD-1"]) "T0" emptyDB)
    ⟨"a1", "nameB", ["synB"], some "small_molecule", ["tgtB"], ["indB"], some "phase2",
      [], some (8/10), some (7/10)⟩
    ⟨some "antibody", some ["PD-1"], "T0"⟩ "T2" rfl

/-- Claim C8: identity determinism.  Names equal after lowercasing and
trimming give equal Company (respectively Asset) identities, and two
display strings whose canonicalizations agree give the same Asset
identity — for every choice of the digest primitive h. -/
theorem identity_determinism
    (h : String → String) (n1 n2 a1 a2 d1 d2 : String)
    (r1 r2 : NormalizedIntervention)
    (hc : pyStrip (pyLower n1) = pyStrip (pyLower n2))
    (hA : pyStrip (pyLower a1) = pyStrip (pyLower a2))
    (hd1 : normalize_intervention d1 = some r1)
    (hd2 : normalize_intervention d2 = some r2)
    (hn : r1.name = r2.name) :
    Company.generate_id h n1 = Company.generate_id h n2
    ∧ Asset.generate_id h a1 = Asset.generate_id h a2
    ∧ Asset.generate_id h r1.name = Asset.generate_id h r2.name := by
  refine ⟨?_, ?_, ?_⟩ <;> simp [Company.generate_id, Asset.generate_id, hc, hA, hn]

/-- Witness for C8 at concrete inputs (digest instantiated with an
injective stand-in): Merck and case/space variants collide, and Keytruda
versus keytruda both canonicalize to pembrolizumab with one identity. -/
theorem identity_determinism_witness :
    Company.generate_id (fun s => s) "Merck" = Company.generate_id (fun s => s) "  MERCK "
    ∧ Asset.generate_id (fun s => s) "Pembrolizumab" = Asset.generate_id (fun s => s) " pembrolizumab"
    ∧ Asset.generate_id (fun s => s) "pembrolizumab" = Asset.generate_id (fun s => s) "pembrolizumab" :=
  identity_determinism (fun s => s) "Merck" "  MERCK " "Pembrolizumab" " pembrolizumab"
    "Keytruda" "keytruda"
    ⟨"pembrolizumab", ["Keytruda", "mk-3475", "mk3475", "lambrolizumab"], none⟩
    ⟨"pembrolizumab", ["keytruda", "mk-3475", "mk3475", "lambrolizumab"], none⟩
    (by decide) (by decide) (by decide) (by decide) rfl

/-! ## Concrete ingestion scenarios

The digest primitive is instantiated with an injective stand-in; the
control flow of the pipeline only ever compares identities for equality,
so the run has the same shape as with the real md5 hexdigest.  The
enrichment component is instantiated with the all-unknown result; no edge
decision reads it. -/

/-- Injective stand-in for the md5 hexdigest in concrete runs. -/
def stubHash : String → String := fun s => s

/-- Enrichment component returning nothing (its output only feeds asset
attribute fields, never edge decisions). -/
def noEnrich : String → List String → String → EnrichResult :=
  fun _ _ _ => ⟨none, [], none, none⟩

/-- Concrete ingestion context for scenario runs. -/
def ctx0 : IngestCtx := { h := stubHash, enrich := noEnrich, now := "T" }

/-- The spec scenario trial: lead sponsor Merck Sharp and Dohme LLC
(industry), intervention Pembrolizumab. -/
def merckTrial : Trial :=
  { trial_id := "NCT12345678", title := "Study of Drug X in Uveal Melanoma",
    phase := some "PHASE2", status := some "RECRUITING", start_date := none,
    completion_date := none, interventions := ["Pembrolizumab"],
    conditions := ["Uveal Melanoma"], sponsors := ["Merck Sharp & Dohme LLC"],
    collaborators := [], enrollment := some 100,
    study_type := some "INTERVENTIONAL", brief_summary := none, evidence := [],
    source_url := "https://clinicaltrials.gov/study/NCT12345678" }

/-- Document node of the scenario record. -/
def merckDoc : Document :=
  { doc_id := "doc_1", doc_type := "clinical_trial",
    publisher := some "ClinicalTrials.gov", url := "https://clinicaltrials.gov/study/NCT12345678",
    published_at := none, retrieved_at := "T", text_hash := none, raw_content := none }

/-- The parsed spec scenario record. -/
def merckRecord : ParsedRecord :=
  { trial := merckTrial, doc := merckDoc, interventions := ["Pembrolizumab"],
    sponsors := ["Merck Sharp & Dohme LLC"], collaborators := [],
    lead_sponsor_class := "INDUSTRY" }

/-- Claim C4 (code divergence run): ingesting the spec scenario record —
registry owner Merck, lead sponsor Merck Sharp and Dohme LLC, which the
registry owner matches under the substring rule — creates NO Owns edge and
DOES create a UsesAsComparator edge (evidence confidence 0.8) scoped to
the trial, because the loop replaces the substring-based
is_proprietary_to_sponsor verdict with exact equality of
normalize_company_name results and the alias table has no entry for the
llc-suffixed variant. -/
theorem registry_owner_match_divergence :
    is_proprietary_to_sponsor "pembrolizumab" "Merck Sharp & Dohme LLC" = true
    ∧ (process_record ctx0 (.ok merckRecord) (mkSt emptyDB noFaults)).1.db.owns
        (Company.generate_id stubHash "Merck Sharp & Dohme LLC",
         Asset.generate_id stubHash "pembrolizumab") = none
    ∧ ((process_record ctx0 (.ok merckRecord) (mkSt emptyDB noFaults)).1.db.uses_as_comparator
        (Company.generate_id stubHash "Merck Sharp & Dohme LLC",
         Asset.generate_id stubHash "pembrolizumab", "NCT12345678")).map
        (fun r => r.evidence.map (fun e => (e.source_type, e.confidence)))
      = some [("inferred_comparator", (8/10 : ℚ))] := by
  refine ⟨by decide, by decide, by rfl⟩

/-- A trial whose lead sponsor is the bare name Immunocore with an empty
registry sponsor class. -/
def immuTrial : Trial :=
  { merckTrial with trial_id := "NCT00000001", interventions := ["Tebentafusp"],
                    sponsors := ["Immunocore"],
                    source_url := "https://clinicaltrials.gov/study/NCT00000001" }

/-- The parsed Immunocore record. -/
def immuRecord : ParsedRecord :=
  { trial := immuTrial, doc := merckDoc, interventions := ["Tebentafusp"],
    sponsors := ["Immunocore"], collaborators := [], lead_sponsor_class := "" }

/-- Claim C5 (counterexample): the ingestion pipeline creates an Owns edge
from a company whose inferred type is non-industry.  The bare sponsor name
Immunocore with an empty sponsor class is classified as other, yet its
trial over tebentafusp (registry owner Immunocore) produces an Owns edge
from that company — the Owns branch, unlike the comparator branch, never
checks the company type. -/
theorem non_industry_owns_counterexample :
    Company.infer_type_from_name "Immunocore" (some "") = "other"
    ∧ ((process_record ctx0 (.ok immuRecord) (mkSt emptyDB noFaults)).1.db.companies
        (Company.generate_id stubHash "Immunocore")).map (fun r => r.company_type)
      = some (some "other")
    ∧ ((process_record ctx0 (.ok immuRecord) (mkSt emptyDB noFaults)).1.db.owns
        (Company.generate_id stubHash "Immunocore",
         Asset.generate_id stubHash "tebentafusp")).isSome = true := by
  refine ⟨by decide, by decide, by decide⟩

/-- Claim C7 (counterexample): a record whose third store write (the lead
sponsor company upsert) raises is a failed record — the loop swallows the
error — yet the returned statistics still count its trial and document,
so the counters are not the aggregate over succeeded records only. -/
theorem partial_record_stats_counterexample :
    (process_record ctx0 (.ok merckRecord) (mkSt emptyDB (fun n => n == 2))).2 = false
    ∧ (ingest_records ctx0 [.ok merckRecord] (mkSt emptyDB (fun n => n == 2))).stats.trials = 1
    ∧ (ingest_records ctx0 [.ok merckRecord] (mkSt emptyDB (fun n => n == 2))).stats.documents = 1 := by
  refine ⟨by decide, by decide, by decide⟩

/-- Claim C7 (amended): no per-record error ever propagates out of the
record loop — after any record, failed or not, the loop continues with the
remaining records from the state the record left behind — and a record
that fails to parse contributes nothing at all: deleting it from anywhere
in the fetched list leaves the whole run unchanged. -/
theorem ingest_error_isolation (ctx : IngestCtx) :
    (∀ (r : Except Unit ParsedRecord) rs st,
        ingest_records ctx (r :: rs) st = ingest_records ctx rs (process_record ctx r st).1)
    ∧ (∀ rs1 rs2 st,
        ingest_records ctx (rs1 ++ Except.error () :: rs2) st = ingest_records ctx (rs1 ++ rs2) st) := by
  constructor
  · intro r rs st
    rfl
  · intro rs1
    induction rs1 with
    | nil => intro rs2 st; rfl
    | cons r rest ih => intro rs2 st; exact ih rs2 (process_record ctx r st).1

/-! ## C6 lemma chain -/

theorem char_ofNat_toNat (n : Nat) (h : n < 55296) : (Char.ofNat n).toNat = n := by
  simp [Char.ofNat, Char.toNat, Nat.isValidChar, h, Char.ofNatAux]; rfl

theorem upper_range_iff (x : Char) : ('A' ≤ x && x ≤ 'Z') = true ↔ 65 ≤ x.toNat ∧ x.toNat ≤ 90 := by
  simp [Char.le_def, UInt32.le_def, BitVec.le_def]
  exact Iff.rfl

theorem lowerChar_idem (c : Char) : lowerChar (lowerChar c) = lowerChar c := by
  by_cases h : ('A' ≤ c && c ≤ 'Z') = true
  · have hb := (upper_range_iff c).mp h
    have ht : (Char.ofNat (c.toNat + 32)).toNat = c.toNat + 32 :=
      char_ofNat_toNat _ (by omega)
    have hf : ('A' ≤ Char.ofNat (c.toNat + 32) && Char.ofNat (c.toNat + 32) ≤ 'Z') = false := by
      rw [Bool.eq_false_iff]
      intro hcontra
      have := (upper_range_iff _).mp hcontra
      rw [ht] at this
      omega
    have e1 : lowerChar c = Char.ofNat (c.toNat + 32) := by
      unfold lowerChar; rw [h]; simp
    have e2 : lowerChar (Char.ofNat (c.toNat + 32)) = Char.ofNat (c.toNat + 32) := by
      unfold lowerChar; rw [hf]; simp
    rw [e1, e2]
  · have hf := Bool.eq_false_iff.mpr h
    have e1 : lowerChar c = c := by
      unfold lowerChar; rw [hf]; simp
    rw [e1, e1]

theorem pyLower_idem (s : String) : pyLower (pyLower s) = pyLower s := by
  unfold pyLower
  simp only [List.map_map]
  exact congrArg String.mk (List.map_congr_left (fun c _ => lowerChar_idem c))

theorem optBranch_isSome (o b : Option (List Char)) :
    (match o with | some r => some r | none => b).isSome = (o.isSome || b.isSome) := by
  cases o <;> simp

theorem starRun_any_isSome (k : List Char → Option (List Char)) :
    ∀ s : List Char, (starRun (fun _ => true) k s).isSome = true ↔
      ∃ n, (k (s.drop n)).isSome = true := by
  intro s
  induction s with
  | nil =>
    constructor
    · exact fun hx => ⟨0, hx⟩
    · rintro ⟨n, hn⟩
      simpa using hn
  | cons c t ih =>
    have hs : starRun (fun _ => true) k (c :: t) =
        match starRun (fun _ => true) k t with
        | some r => some r
        | none => k (c :: t) := by
      simp [starRun]
    rw [hs, optBranch_isSome, Bool.or_eq_true]
    constructor
    · rintro (hx | hx)
      · obtain ⟨n, hn⟩ := ih.mp hx
        exact ⟨n + 1, by simpa using hn⟩
      · exact ⟨0, by simpa using hx⟩
    · rintro ⟨n, hn⟩
      cases n with
      | zero => right; simpa using hn
      | succ n => left; exact ih.mpr ⟨n, by simpa using hn⟩

/-- Case-insensitive prefix test used to state the LIKE semantics. -/
def ciPrefix : List Char → List Char → Bool
  | [], _ => true
  | _ :: _, [] => false
  | c :: cs, d :: ds => (decide (lowerChar d = lowerChar c)) && ciPrefix cs ds

theorem reSeqL_cons (x : Re) (xs : List Re) : reSeqL (x :: xs) = .seq x (reSeqL xs) := rfl

theorem lit_chain (k : List Char → Option (List Char)) :
    ∀ (l : List Char) (rest : List Re) (s : List Char),
      reMatch (reSeqL (l.map ciCls ++ rest)) s k =
        if ciPrefix l s then reMatch (reSeqL rest) (s.drop l.length) k else none := by
  intro l
  induction l with
  | nil => intro rest s; simp [ciPrefix]
  | cons c cs ih =>
    intro rest s
    cases s with
    | nil => simp [reSeqL_cons, reMatch, ciPrefix, ciCls]
    | cons d t =>
      rw [show ((c :: cs).map ciCls ++ rest) = ciCls c :: (cs.map ciCls ++ rest) from rfl,
          reSeqL_cons]
      rw [show reMatch (.seq (ciCls c) (reSeqL (cs.map ciCls ++ rest))) (d :: t) k =
            (if decide (lowerChar d = lowerChar c) then
               reMatch (reSeqL (cs.map ciCls ++ rest)) t k else none) from rfl]
      rw [ih]
      rw [show ciPrefix (c :: cs) (d :: t) =
            (decide (lowerChar d = lowerChar c) && ciPrefix cs t) from rfl]
      cases hA : decide (lowerChar d = lowerChar c) <;>
        cases hB : ciPrefix cs t <;>
          simp [hA, hB, List.drop_succ_cons]

theorem star_end_isSome (u : List Char) :
    (reMatch (reSeqL [Re.starCls (fun _ => true)])
      u (fun r => if r.isEmpty then some r else none)).isSome = true := by
  have hu : reMatch (reSeqL [Re.starCls (fun _ => true)]) u
      (fun r => if r.isEmpty then some r else none) =
      starRun (fun _ => true) (fun r => if r.isEmpty then some r else none) u := by
    simp [reSeqL, reMatch]
  rw [hu, starRun_any_isSome]
  exact ⟨u.length, by simp [List.drop_length]⟩

theorem listInfixOf_iff_drop (x : List Char) :
    ∀ y, listInfixOf x y = true ↔ ∃ n, x.isPrefixOf (y.drop n) = true := by
  intro y
  induction y with
  | nil =>
    constructor
    · intro hx; exact ⟨0, by cases x <;> simp_all [listInfixOf, List.isPrefixOf]⟩
    · rintro ⟨n, hn⟩; cases x <;> simp_all [listInfixOf, List.isPrefixOf]
  | cons c t ih =>
    rw [show listInfixOf x (c :: t) = (x.isPrefixOf (c :: t) || listInfixOf x t) from rfl,
        Bool.or_eq_true]
    constructor
    · rintro (hx | hx)
      · exact ⟨0, by simpa using hx⟩
      · obtain ⟨n, hn⟩ := ih.mp hx
        exact ⟨n + 1, by simpa using hn⟩
    · rintro ⟨n, hn⟩
      cases n with
      | zero => left; simpa using hn
      | succ n => right; exact ih.mpr ⟨n, by simpa using hn⟩

theorem ciPrefix_eq (l : List Char) :
    ∀ u, ciPrefix l u = (l.map lowerChar).isPrefixOf (u.map lowerChar) := by
  induction l with
  | nil => intro u; simp [ciPrefix, List.isPrefixOf]
  | cons c cs ih =>
    intro u
    cases u with
    | nil => simp [ciPrefix, List.isPrefixOf]
    | cons d ds =>
      show (decide (lowerChar d = lowerChar c) && ciPrefix cs ds) = _
      rw [ih ds]
      rw [show ((c :: cs).map lowerChar).isPrefixOf ((d :: ds).map lowerChar) =
        ((lowerChar c == lowerChar d) && (cs.map lowerChar).isPrefixOf (ds.map lowerChar)) from rfl]
      have hhead : (decide (lowerChar d = lowerChar c)) = (lowerChar c == lowerChar d) := by
        rw [Bool.eq_iff_iff]
        simp only [decide_eq_true_eq, beq_iff_eq]
        exact eq_comm
      rw [hhead]

theorem sqlLike_pct_eq_substring (w s : String)
    (hw : ∀ c ∈ w.data, ¬(c = '%' ∨ c = '_')) :
    sqlLike ("%" ++ w ++ "%") s = listInfixOf (pyLower w).data (pyLower s).data := by
  have hdata : ("%" ++ w ++ "%").data = '%' :: (w.data ++ ['%']) := by
    simp [String.data_append]
  have hlike : ∀ c ∈ w.data, likeCharRe c = ciCls c := by
    intro c hc
    have h1 : c ≠ '%' := fun he => hw c hc (Or.inl he)
    have h2 : c ≠ '_' := fun he => hw c hc (Or.inr he)
    simp [likeCharRe, h1, h2]
  have hmap : (("%" ++ w ++ "%").data.map likeCharRe) =
      Re.starCls (fun _ => true) :: (w.data.map ciCls ++ [Re.starCls (fun _ => true)]) := by
    rw [hdata]
    simp only [List.map_cons, List.map_append]
    rw [List.map_congr_left hlike]
    rfl
  rw [Bool.eq_iff_iff]
  unfold sqlLike
  rw [hmap, reSeqL_cons]
  rw [show reMatch (.seq (Re.starCls fun _ => true)
          (reSeqL (w.data.map ciCls ++ [Re.starCls fun _ => true]))) s.data
        (fun r => if r.isEmpty then some r else none) =
      starRun (fun _ => true)
        (fun s2 => reMatch (reSeqL (w.data.map ciCls ++ [Re.starCls fun _ => true])) s2
          (fun r => if r.isEmpty then some r else none)) s.data from rfl]
  rw [starRun_any_isSome]
  have hstep : ∀ u, (reMatch (reSeqL (w.data.map ciCls ++ [Re.starCls fun _ => true])) u
      (fun r => if r.isEmpty then some r else none)).isSome = true ↔ ciPrefix w.data u = true := by
    intro u
    rw [lit_chain]
    by_cases hc : ciPrefix w.data u = true
    · rw [if_pos hc]
      simp only [hc, iff_true]
      exact star_end_isSome _
    · rw [if_neg hc]
      simp [hc]
  rw [listInfixOf_iff_drop]
  constructor
  · rintro ⟨n, hn⟩
    refine ⟨n, ?_⟩
    have hcp := (hstep _).mp hn
    rw [ciPrefix_eq] at hcp
    rw [show (pyLower w).data = w.data.map lowerChar from rfl,
        show (pyLower s).data = s.data.map lowerChar from rfl,
        ← List.map_drop]
    exact hcp
  · rintro ⟨n, hn⟩
    refine ⟨n, ?_⟩
    apply (hstep _).mpr
    rw [ciPrefix_eq]
    rw [show (pyLower w).data = w.data.map lowerChar from rfl,
        show (pyLower s).data = s.data.map lowerChar from rfl,
        ← List.map_drop] at hn
    exact hn

theorem list_any_congr {α : Type} (l : List α) (f g : α → Bool)
    (h : ∀ x ∈ l, f x = g x) : l.any f = l.any g := by
  induction l with
  | nil => rfl
  | cons x t ih =>
    simp only [List.any_cons, h x (by simp)]
    rw [ih (fun y hy => h y (by simp [hy]))]

theorem list_all_congr {α : Type} (l : List α) (f g : α → Bool)
    (h : ∀ x ∈ l, f x = g x) : l.all f = l.all g := by
  induction l with
  | nil => rfl
  | cons x t ih =>
    simp only [List.all_cons, h x (by simp)]
    rw [ih (fun y hy => h y (by simp [hy]))]

/-- Claim C6 (amended): for indication terms none of whose words contains a
SQL LIKE wildcard, the WHERE clause built by get_indication_graph (and the
get_landscape_stats aggregations) selects exactly the trials for which at
least one term has every one of its whitespace-separated lowercase words
occurring as a substring of the lowercased stored searchable-condition
string; a word containing a percent or underscore character is instead
interpreted as a LIKE pattern. -/
theorem indication_match_semantics (terms : List String) (cs : String)
    (hw : ∀ t ∈ terms, ∀ w ∈ term_words t, ∀ c ∈ w.data, ¬(c = '%' ∨ c = '_')) :
    trial_matches_terms terms cs = words_all_occur_spec terms cs := by
  unfold trial_matches_terms words_all_occur_spec
  apply list_any_congr
  intro t ht
  show (!(term_words t).isEmpty
        && (term_words t).all (fun w => sqlLike ("%" ++ w ++ "%") (pyLower cs)))
    = (!(term_words t).isEmpty
        && (term_words t).all (fun w => listInfixOf (pyLower w).data (pyLower cs).data))
  congr 1
  apply list_all_congr
  intro w hwmem
  rw [sqlLike_pct_eq_substring w (pyLower cs) (hw t ht w hwmem), pyLower_idem]

/-- Witness for C6 (amended): a trial stored with conditions
Melanoma, Uveal is matched by the term uveal melanoma. -/
theorem indication_match_semantics_witness :
    trial_matches_terms ["uveal melanoma"] (conditions_to_searchable ["Melanoma, Uveal"]) = true := by
  rw [indication_match_semantics ["uveal melanoma"] (conditions_to_searchable ["Melanoma, Uveal"])
      (by decide)]
  decide

/-- Claim C6 (counterexample): the claim as stated fails for a term word
containing a LIKE wildcard — the stored trial with conditions abc is
selected for the term a_c although a_c does not occur in the derived
searchable string abc. -/
theorem like_wildcard_counterexample :
    trial_matches_terms ["a_c"] (conditions_to_searchable ["abc"]) = true
    ∧ words_all_occur_spec ["a_c"] (conditions_to_searchable ["abc"]) = false :=
  ⟨by decide, by decide⟩
/-! ## C5 lemma chain: participates edges for non-industry sponsors,
comparator edges only from industry lead sponsors -/

theorem tryWrite_noFaults (f : DB → DB) (st : St) (hf : st.faults = noFaults) :
    tryWrite f st = ({ st with db := f st.db, ctr := st.ctr + 1 }, true) := by
  unfold tryWrite
  rw [hf]
  rfl

theorem tryWrite_faults_frame (f : DB → DB) (st : St) :
    (tryWrite f st).1.faults = st.faults := by
  unfold tryWrite
  split
  · rfl
  · rfl

theorem tryWrite_comparator_frame (f : DB → DB) (st : St)
    (hf : ∀ db, (f db).uses_as_comparator = db.uses_as_comparator) :
    (tryWrite f st).1.db.uses_as_comparator = st.db.uses_as_comparator := by
  unfold tryWrite
  split
  · rfl
  · exact hf st.db

theorem tryWrite_participates_frame (f : DB → DB) (st : St)
    (hf : ∀ db, (f db).participates_in_trial = db.participates_in_trial) :
    (tryWrite f st).1.db.participates_in_trial = st.db.participates_in_trial := by
  unfold tryWrite
  split
  · rfl
  · exact hf st.db

theorem tryWrite_false_db (f : DB → DB) (st : St)
    (h : (tryWrite f st).2 = false) : (tryWrite f st).1.db = st.db := by
  unfold tryWrite at h ⊢
  by_cases hc : st.faults st.ctr
  · rw [if_pos hc]
  · rw [if_neg hc] at h
    exact absurd h (by simp)

theorem tryWrite_true_db (f : DB → DB) (st : St)
    (h : (tryWrite f st).2 = true) : (tryWrite f st).1.db = f st.db := by
  unfold tryWrite at h ⊢
  by_cases hc : st.faults st.ctr
  · rw [if_pos hc] at h
    exact absurd h (by simp)
  · rw [if_neg hc]

theorem create_owns_comparator_frame (rel : Owns) (uc : Bool) (db : DB) :
    (create_owns rel uc db).uses_as_comparator = db.uses_as_comparator := by
  unfold create_owns
  repeat' split
  all_goals rfl

theorem create_owns_participates_frame (rel : Owns) (uc : Bool) (db : DB) :
    (create_owns rel uc db).participates_in_trial = db.participates_in_trial := by
  unfold create_owns
  repeat' split
  all_goals rfl

theorem create_has_trial_participates_frame (rel : HasTrial) (db : DB) :
    (create_has_trial rel db).participates_in_trial = db.participates_in_trial := rfl

theorem create_has_trial_comparator_frame (rel : HasTrial) (db : DB) :
    (create_has_trial rel db).uses_as_comparator = db.uses_as_comparator := rfl

theorem create_uses_as_comparator_participates_frame (rel : UsesAsComparator) (db : DB) :
    (create_uses_as_comparator rel db).participates_in_trial = db.participates_in_trial := rfl

theorem upsert_trial_comparator_frame (t : Trial) (now : String) (db : DB) :
    (upsert_trial t now db).uses_as_comparator = db.uses_as_comparator := rfl

theorem upsert_document_comparator_frame (d : Document) (now : String) (db : DB) :
    (upsert_document d now db).uses_as_comparator = db.uses_as_comparator := rfl

theorem sponsor_company_step_frame (ctx : IngestCtx) (p : ParsedRecord)
    (n cid t : String) (st : St) :
    (sponsor_company_step ctx p n cid t st).1.db.participates_in_trial = st.db.participates_in_trial
    ∧ (sponsor_company_step ctx p n cid t st).1.db.uses_as_comparator = st.db.uses_as_comparator
    ∧ (sponsor_company_step ctx p n cid t st).1.db.owns = st.db.owns
    ∧ (sponsor_company_step ctx p n cid t st).1.faults = st.faults := by
  unfold sponsor_company_step tryWrite
  repeat' split
  all_goals exact ⟨rfl, rfl, rfl, rfl⟩

theorem sponsor_company_step_ok (ctx : IngestCtx) (p : ParsedRecord)
    (n cid t : String) (st : St) (hf : st.faults = noFaults) :
    (sponsor_company_step ctx p n cid t st).2 = true := by
  unfold sponsor_company_step
  split
  · rfl
  · simp [tryWrite_noFaults _ _ hf]

theorem sponsor_edge_step_frame (ctx : IngestCtx) (p : ParsedRecord)
    (cid t role : String) (st : St) :
    (sponsor_edge_step ctx p cid t role st).1.db.uses_as_comparator = st.db.uses_as_comparator
    ∧ (sponsor_edge_step ctx p cid t role st).1.db.owns = st.db.owns
    ∧ (sponsor_edge_step ctx p cid t role st).1.faults = st.faults := by
  unfold sponsor_edge_step tryWrite
  repeat' split
  all_goals exact ⟨rfl, rfl, rfl⟩

theorem sponsor_edge_step_ok (ctx : IngestCtx) (p : ParsedRecord)
    (cid t role : String) (st : St) (hf : st.faults = noFaults) :
    (sponsor_edge_step ctx p cid t role st).2 = true := by
  unfold sponsor_edge_step
  split
  · rw [tryWrite_noFaults _ _ hf]
  · rw [tryWrite_noFaults _ _ hf]

theorem sponsor_edge_step_other_keys (ctx : IngestCtx) (p : ParsedRecord)
    (cid t role : String) (st : St) (k : String × String) (hk : k.1 ≠ cid) :
    (sponsor_edge_step ctx p cid t role st).1.db.participates_in_trial k
      = st.db.participates_in_trial k := by
  unfold sponsor_edge_step tryWrite
  repeat' split
  all_goals first
    | rfl
    | (show upd st.db.participates_in_trial (cid, p.trial.trial_id) _ k = st.db.participates_in_trial k
       unfold upd
       rw [if_neg (fun he => hk (by rw [he]))])

theorem sponsor_edge_step_writes (ctx : IngestCtx) (p : ParsedRecord)
    (cid t role : String) (st : St) (ht : ¬ t = "industry") (hf : st.faults = noFaults) :
    (sponsor_edge_step ctx p cid t role st).1.db.participates_in_trial (cid, p.trial.trial_id)
      = some ⟨(if t = "academic" || t = "site" then "site" else role),
              [⟨"clinicaltrials", some p.trial.source_url, some p.trial.trial_id, 1, ctx.now⟩]⟩ := by
  unfold sponsor_edge_step
  rw [if_neg ht, tryWrite_noFaults _ _ hf]
  show upd st.db.participates_in_trial (cid, p.trial.trial_id) _ (cid, p.trial.trial_id) = _
  unfold upd
  rw [if_pos rfl]

theorem process_sponsors_state (ctx : IngestCtx) (p : ParsedRecord) :
    ∀ (names : List String) (i : Nat) (st : St),
      (process_sponsors ctx p i names st).1.db.uses_as_comparator = st.db.uses_as_comparator
      ∧ (process_sponsors ctx p i names st).1.db.owns = st.db.owns
      ∧ (process_sponsors ctx p i names st).1.faults = st.faults := by
  intro names
  induction names with
  | nil => intro i st; exact ⟨rfl, rfl, rfl⟩
  | cons name rest ih =>
    intro i st
    simp only [process_sponsors]
    by_cases hemp : name.isEmpty
    · rw [if_pos hemp]; exact ih (i + 1) st
    · rw [if_neg hemp]
      obtain ⟨f1, f2, f3, f4⟩ := sponsor_company_step_frame ctx p name
        (Company.generate_id ctx.h name) (sponsor_company_type p i name) st
      cases hb1 : (sponsor_company_step ctx p name (Company.generate_id ctx.h name)
          (sponsor_company_type p i name) st).2 with
      | false =>
        simp only [hb1, Bool.not_false, if_true]
        exact ⟨f2, f3, f4⟩
      | true =>
        simp only [hb1, Bool.not_true, Bool.false_eq_true, if_false]
        obtain ⟨e1, e2, e3⟩ := sponsor_edge_step_frame ctx p
          (Company.generate_id ctx.h name) (sponsor_company_type p i name)
          (if i < p.sponsors.length then "lead_sponsor" else "collaborator")
          (sponsor_company_step ctx p name (Company.generate_id ctx.h name)
            (sponsor_company_type p i name) st).1
        cases hb2 : (sponsor_edge_step ctx p (Company.generate_id ctx.h name)
            (sponsor_company_type p i name)
            (if i < p.sponsors.length then "lead_sponsor" else "collaborator")
            (sponsor_company_step ctx p name (Company.generate_id ctx.h name)
              (sponsor_company_type p i name) st).1).2 with
        | false =>
          simp only [hb2, Bool.not_false, if_true]
          exact ⟨e1.trans f2, e2.trans f3, e3.trans f4⟩
        | true =>
          simp only [hb2, Bool.not_true, Bool.false_eq_true, if_false]
          obtain ⟨g1, g2, g3⟩ := ih (i + 1) (bump_sponsor_relations
            (sponsor_edge_step ctx p (Company.generate_id ctx.h name)
              (sponsor_company_type p i name)
              (if i < p.sponsors.length then "lead_sponsor" else "collaborator")
              (sponsor_company_step ctx p name (Company.generate_id ctx.h name)
                (sponsor_company_type p i name) st).1).1)
          exact ⟨g1.trans (e1.trans f2), g2.trans (e2.trans f3), g3.trans (e3.trans f4)⟩

theorem process_sponsors_noFaults (ctx : IngestCtx) (p : ParsedRecord) :
    ∀ (names : List String) (i : Nat) (st : St), st.faults = noFaults →
      (process_sponsors ctx p i names st).2 = true := by
  intro names
  induction names with
  | nil => intro i st _; rfl
  | cons name rest ih =>
    intro i st hf
    simp only [process_sponsors]
    by_cases hemp : name.isEmpty
    · rw [if_pos hemp]; exact ih (i + 1) st hf
    · rw [if_neg hemp]
      have hb1 := sponsor_company_step_ok ctx p name (Company.generate_id ctx.h name)
        (sponsor_company_type p i name) st hf
      have hf1 : (sponsor_company_step ctx p name (Company.generate_id ctx.h name)
          (sponsor_company_type p i name) st).1.faults = noFaults :=
        (sponsor_company_step_frame ctx p name _ _ st).2.2.2.trans hf
      have hb2 := sponsor_edge_step_ok ctx p (Company.generate_id ctx.h name)
        (sponsor_company_type p i name)
        (if i < p.sponsors.length then "lead_sponsor" else "collaborator")
        (sponsor_company_step ctx p name (Company.generate_id ctx.h name)
          (sponsor_company_type p i name) st).1 hf1
      simp only [hb1, hb2, Bool.not_true, Bool.false_eq_true, if_false]
      apply ih
      show (bump_sponsor_relations _).faults = noFaults
      exact (sponsor_edge_step_frame ctx p _ _ _ _).2.2.trans hf1

theorem process_sponsors_participates_frame (ctx : IngestCtx) (p : ParsedRecord) :
    ∀ (names : List String) (i : Nat) (st : St) (k : String × String),
      k.1 ∉ (names.filter (fun n => !n.isEmpty)).map (Company.generate_id ctx.h) →
      (process_sponsors ctx p i names st).1.db.participates_in_trial k
        = st.db.participates_in_trial k := by
  intro names
  induction names with
  | nil => intro i st k _; rfl
  | cons name rest ih =>
    intro i st k hk
    simp only [process_sponsors]
    by_cases hemp : name.isEmpty
    · rw [if_pos hemp]
      refine ih (i + 1) st k ?_
      simpa [List.filter_cons, hemp] using hk
    · rw [if_neg hemp]
      have hk2 : k.1 ∉ (rest.filter (fun n => !n.isEmpty)).map (Company.generate_id ctx.h) := by
        intro hmem
        exact hk (by simp [List.filter_cons, hemp, hmem])
      have hkc : k.1 ≠ Company.generate_id ctx.h name := by
        intro he
        exact hk (by simp [List.filter_cons, hemp, he])
      obtain ⟨f1, _, _, _⟩ := sponsor_company_step_frame ctx p name
        (Company.generate_id ctx.h name) (sponsor_company_type p i name) st
      cases hb1 : (sponsor_company_step ctx p name (Company.generate_id ctx.h name)
          (sponsor_company_type p i name) st).2 with
      | false =>
        simp only [hb1, Bool.not_false, if_true]
        exact congrFun f1 k
      | true =>
        simp only [hb1, Bool.not_true, Bool.false_eq_true, if_false]
        have he1 := sponsor_edge_step_other_keys ctx p (Company.generate_id ctx.h name)
          (sponsor_company_type p i name)
          (if i < p.sponsors.length then "lead_sponsor" else "collaborator")
          (sponsor_company_step ctx p name (Company.generate_id ctx.h name)
            (sponsor_company_type p i name) st).1 k hkc
        cases hb2 : (sponsor_edge_step ctx p (Company.generate_id ctx.h name)
            (sponsor_company_type p i name)
            (if i < p.sponsors.length then "lead_sponsor" else "collaborator")
            (sponsor_company_step ctx p name (Company.generate_id ctx.h name)
              (sponsor_company_type p i name) st).1).2 with
        | false =>
          simp only [hb2, Bool.not_false, if_true]
          exact he1.trans (congrFun f1 k)
        | true =>
          simp only [hb2, Bool.not_true, Bool.false_eq_true, if_false]
          have hr := ih (i + 1) (bump_sponsor_relations
            (sponsor_edge_step ctx p (Company.generate_id ctx.h name)
              (sponsor_company_type p i name)
              (if i < p.sponsors.length then "lead_sponsor" else "collaborator")
              (sponsor_company_step ctx p name (Company.generate_id ctx.h name)
                (sponsor_company_type p i name) st).1).1) k hk2
          exact hr.trans (he1.trans (congrFun f1 k))

theorem process_sponsors_writes (ctx : IngestCtx) (p : ParsedRecord) :
    ∀ (names : List String) (i : Nat) (st : St),
      st.faults = noFaults →
      ((names.filter (fun n => !n.isEmpty)).map (Company.generate_id ctx.h)).Nodup →
      ∀ (j : Nat) (hj : j < names.length),
        ¬(names.get ⟨j, hj⟩).isEmpty →
        ¬ sponsor_company_type p (i + j) (names.get ⟨j, hj⟩) = "industry" →
        (process_sponsors ctx p i names st).1.db.participates_in_trial
            (Company.generate_id ctx.h (names.get ⟨j, hj⟩), p.trial.trial_id)
          = some ⟨sponsor_role p (i + j) (names.get ⟨j, hj⟩),
                  [⟨"clinicaltrials", some p.trial.source_url, some p.trial.trial_id, 1, ctx.now⟩]⟩ := by
  intro names
  induction names with
  | nil => intro i st _ _ j hj; exact absurd hj (by simp)
  | cons name rest ih =>
    intro i st hf hnd j hj hne hni
    simp only [process_sponsors]
    by_cases hemp : name.isEmpty
    · rw [if_pos hemp]
      cases j with
      | zero => exact absurd hemp (by simpa using hne)
      | succ j =>
        have hnd2 : ((rest.filter (fun n => !n.isEmpty)).map (Company.generate_id ctx.h)).Nodup := by
          simpa [List.filter_cons, hemp] using hnd
        have hj2 : j < rest.length := by
          simp only [List.length_cons] at hj
          omega
        have hget : (name :: rest).get ⟨j + 1, hj⟩ = rest.get ⟨j, hj2⟩ := rfl
        rw [hget] at hne hni ⊢
        rw [show i + (j + 1) = (i + 1) + j by omega] at hni ⊢
        exact ih (i + 1) st hf hnd2 j hj2 hne hni
    · rw [if_neg hemp]
      have hb1 := sponsor_company_step_ok ctx p name (Company.generate_id ctx.h name)
        (sponsor_company_type p i name) st hf
      obtain ⟨f1, _, _, f4⟩ := sponsor_company_step_frame ctx p name
        (Company.generate_id ctx.h name) (sponsor_company_type p i name) st
      have hf1 : (sponsor_company_step ctx p name (Company.generate_id ctx.h name)
          (sponsor_company_type p i name) st).1.faults = noFaults := f4.trans hf
      have hb2 := sponsor_edge_step_ok ctx p (Company.generate_id ctx.h name)
        (sponsor_company_type p i name)
        (if i < p.sponsors.length then "lead_sponsor" else "collaborator")
        (sponsor_company_step ctx p name (Company.generate_id ctx.h name)
          (sponsor_company_type p i name) st).1 hf1
      simp only [hb1, hb2, Bool.not_true, Bool.false_eq_true, if_false]
      have hfilter : ((name :: rest).filter (fun n => !n.isEmpty)).map (Company.generate_id ctx.h)
          = Company.generate_id ctx.h name ::
            (rest.filter (fun n => !n.isEmpty)).map (Company.generate_id ctx.h) := by
        simp [List.filter_cons, hemp]
      rw [hfilter] at hnd
      have hnotin := (List.nodup_cons.mp hnd).1
      have hnd2 := (List.nodup_cons.mp hnd).2
      cases j with
      | zero =>
        have hframe := process_sponsors_participates_frame ctx p rest (i + 1)
          (bump_sponsor_relations
            (sponsor_edge_step ctx p (Company.generate_id ctx.h name)
              (sponsor_company_type p i name)
              (if i < p.sponsors.length then "lead_sponsor" else "collaborator")
              (sponsor_company_step ctx p name (Company.generate_id ctx.h name)
                (sponsor_company_type p i name) st).1).1)
          (Company.generate_id ctx.h name, p.trial.trial_id) hnotin
        rw [show (name :: rest).get ⟨0, hj⟩ = name from rfl] at hni ⊢
        rw [hframe]
        have hwr := sponsor_edge_step_writes ctx p (Company.generate_id ctx.h name)
          (sponsor_company_type p i name)
          (if i < p.sponsors.length then "lead_sponsor" else "collaborator")
          (sponsor_company_step ctx p name (Company.generate_id ctx.h name)
            (sponsor_company_type p i name) st).1
          (by simpa [Nat.add_zero] using hni) hf1
        rw [show (bump_sponsor_relations _).db = (sponsor_edge_step ctx p
          (Company.generate_id ctx.h name) (sponsor_company_type p i name)
          (if i < p.sponsors.length then "lead_sponsor" else "collaborator")
          (sponsor_company_step ctx p name (Company.generate_id ctx.h name)
            (sponsor_company_type p i name) st).1).1.db from rfl]
        rw [hwr]
        simp [sponsor_role, Nat.add_zero]
      | succ j =>
        have hf2 : (bump_sponsor_relations
            (sponsor_edge_step ctx p (Company.generate_id ctx.h name)
              (sponsor_company_type p i name)
              (if i < p.sponsors.length then "lead_sponsor" else "collaborator")
              (sponsor_company_step ctx p name (Company.generate_id ctx.h name)
                (sponsor_company_type p i name) st).1).1).faults = noFaults :=
          (sponsor_edge_step_frame ctx p _ _ _ _).2.2.trans hf1
        have hj2 : j < rest.length := by
          simp only [List.length_cons] at hj
          omega
        have hget : (name :: rest).get ⟨j + 1, hj⟩ = rest.get ⟨j, hj2⟩ := rfl
        rw [hget] at hne hni ⊢
        rw [show i + (j + 1) = (i + 1) + j by omega] at hni ⊢
        exact ih (i + 1) _ hf2 hnd2 j hj2 hne hni

theorem intervention_asset_step_frame (ctx : IngestCtx) (p : ParsedRecord)
    (nz : NormalizedIntervention) (aid : String) (ki : KnownAssetEnrichment) (st : St) :
    (intervention_asset_step ctx p nz aid ki st).1.db.participates_in_trial = st.db.participates_in_trial
    ∧ (intervention_asset_step ctx p nz aid ki st).1.db.uses_as_comparator = st.db.uses_as_comparator
    ∧ (intervention_asset_step ctx p nz aid ki st).1.faults = st.faults := by
  unfold intervention_asset_step tryWrite
  repeat' split
  all_goals exact ⟨rfl, rfl, rfl⟩

set_option maxHeartbeats 1000000 in
theorem intervention_ownership_step_frame (ctx : IngestCtx) (p : ParsedRecord)
    (nz : NormalizedIntervention) (aid : String) (ki : KnownAssetEnrichment) (st : St) :
    (intervention_ownership_step ctx p nz aid ki st).1.db.participates_in_trial
      = st.db.participates_in_trial
    ∧ (intervention_ownership_step ctx p nz aid ki st).1.faults = st.faults := by
  unfold intervention_ownership_step
  cases hps : p.sponsors with
  | nil => exact ⟨rfl, rfl⟩
  | cons lead others =>
    dsimp only
    split
    · split
      · split
        · exact ⟨tryWrite_participates_frame _ _ (fun db => create_owns_participates_frame _ _ db),
                 tryWrite_faults_frame _ _⟩
        · exact ⟨tryWrite_participates_frame _ _ (fun db => create_owns_participates_frame _ _ db),
                 tryWrite_faults_frame _ _⟩
      · split
        · exact ⟨tryWrite_participates_frame _ _ (fun db => create_owns_participates_frame _ _ db),
                 tryWrite_faults_frame _ _⟩
        · exact ⟨tryWrite_participates_frame _ _ (fun db => create_owns_participates_frame _ _ db),
                 tryWrite_faults_frame _ _⟩
    · split
      · split
        · split
          · exact ⟨tryWrite_participates_frame _ _
                     (fun db => create_uses_as_comparator_participates_frame _ db),
                   tryWrite_faults_frame _ _⟩
          · exact ⟨tryWrite_participates_frame _ _
                     (fun db => create_uses_as_comparator_participates_frame _ db),
                   tryWrite_faults_frame _ _⟩
        · exact ⟨rfl, rfl⟩
      · exact ⟨rfl, rfl⟩

set_option maxHeartbeats 1000000 in
theorem intervention_ownership_step_comparator (ctx : IngestCtx) (p : ParsedRecord)
    (nz : NormalizedIntervention) (aid : String) (ki : KnownAssetEnrichment) (st : St)
    (k : String × String × String)
    (hne : (intervention_ownership_step ctx p nz aid ki st).1.db.uses_as_comparator k
           ≠ st.db.uses_as_comparator k) :
    p.sponsors ≠ []
    ∧ k.1 = Company.generate_id ctx.h (p.sponsors.headD "")
    ∧ k.2.2 = p.trial.trial_id
    ∧ Company.infer_type_from_name (p.sponsors.headD "") (some p.lead_sponsor_class)
        = "industry" := by
  revert hne
  unfold intervention_ownership_step
  cases hps : p.sponsors with
  | nil =>
    intro hne
    exact absurd rfl hne
  | cons lead others =>
    intro hne
    dsimp only at hne
    refine ⟨List.cons_ne_nil _ _, ?_⟩
    simp only [List.headD_cons]
    split at hne
    · split at hne
      · split at hne
        · exact absurd (congrFun (tryWrite_comparator_frame _ st
            (fun db => create_owns_comparator_frame _ _ db)) k) hne
        · exact absurd (congrFun (tryWrite_comparator_frame _ st
            (fun db => create_owns_comparator_frame _ _ db)) k) hne
      · split at hne
        · exact absurd (congrFun (tryWrite_comparator_frame _ st
            (fun db => create_owns_comparator_frame _ _ db)) k) hne
        · exact absurd (congrFun (tryWrite_comparator_frame _ st
            (fun db => create_owns_comparator_frame _ _ db)) k) hne
    · split at hne
      · split at hne
        · next hind =>
          split at hne
          · next hw =>
            dsimp only [bump_ownership_relations] at hne
            rw [tryWrite_true_db _ _ hw] at hne
            simp only [create_uses_as_comparator, upd] at hne
            split at hne
            · next hk =>
              rw [hk]
              exact ⟨rfl, rfl, hind⟩
            · exact absurd rfl hne
          · next hw =>
            dsimp only at hne
            rw [tryWrite_false_db _ _ (Bool.eq_false_iff.mpr hw)] at hne
            exact absurd rfl hne
        · exact absurd rfl hne
      · exact absurd rfl hne

theorem process_interventions_participates_frame (ctx : IngestCtx) (p : ParsedRecord) :
    ∀ (ints : List String) (st : St),
      (process_interventions ctx p ints st).1.db.participates_in_trial
        = st.db.participates_in_trial := by
  intro ints
  induction ints with
  | nil => intro st; rfl
  | cons name rest ih =>
    intro st
    simp only [process_interventions]
    by_cases hemp : name.isEmpty
    · rw [if_pos hemp]; exact ih st
    · rw [if_neg hemp]
      cases hnz : normalize_intervention name with
      | none => exact ih st
      | some nz =>
        obtain ⟨a1, _, _⟩ := intervention_asset_step_frame ctx p nz
          (Asset.generate_id ctx.h nz.name) (enrich_asset_with_known_data nz.name) st
        dsimp only
        split
        · exact a1
        · split
          · exact (tryWrite_participates_frame _ _
              (fun db => create_has_trial_participates_frame _ db)).trans a1
          · split
            · exact ((intervention_ownership_step_frame ctx p nz _ _ _).1).trans
                ((tryWrite_participates_frame _ _
                  (fun db => create_has_trial_participates_frame _ db)).trans a1)
            · exact (ih _).trans (((intervention_ownership_step_frame ctx p nz _ _ _).1).trans
                ((tryWrite_participates_frame _ _
                  (fun db => create_has_trial_participates_frame _ db)).trans a1))

theorem process_interventions_comparator (ctx : IngestCtx) (p : ParsedRecord) :
    ∀ (ints : List String) (st : St) (k : String × String × String),
      (process_interventions ctx p ints st).1.db.uses_as_comparator k
        ≠ st.db.uses_as_comparator k →
      p.sponsors ≠ []
      ∧ k.1 = Company.generate_id ctx.h (p.sponsors.headD "")
      ∧ k.2.2 = p.trial.trial_id
      ∧ Company.infer_type_from_name (p.sponsors.headD "") (some p.lead_sponsor_class)
          = "industry" := by
  intro ints
  induction ints with
  | nil => intro st k hne; exact absurd rfl hne
  | cons name rest ih =>
    intro st k hne
    simp only [process_interventions] at hne
    by_cases hemp : name.isEmpty
    · rw [if_pos hemp] at hne
      exact ih st k hne
    · rw [if_neg hemp] at hne
      cases hnz : normalize_intervention name with
      | none =>
        rw [hnz] at hne
        exact ih st k hne
      | some nz =>
        rw [hnz] at hne
        dsimp only at hne
        obtain ⟨_, a2, _⟩ := intervention_asset_step_frame ctx p nz
          (Asset.generate_id ctx.h nz.name) (enrich_asset_with_known_data nz.name) st
        split at hne
        · exact absurd (congrFun a2 k) hne
        · have b2 : (tryWrite (create_has_trial
              { asset_id := Asset.generate_id ctx.h nz.name, trial_id := p.trial.trial_id,
                evidence := [⟨"clinicaltrials", some p.trial.source_url,
                              some p.trial.trial_id, 1, ctx.now⟩] })
              (intervention_asset_step ctx p nz (Asset.generate_id ctx.h nz.name)
                (enrich_asset_with_known_data nz.name) st).1).1.db.uses_as_comparator
              = st.db.uses_as_comparator :=
            (tryWrite_comparator_frame _ _
              (fun db => create_has_trial_comparator_frame _ db)).trans a2
          split at hne
          · exact absurd (congrFun b2 k) hne
          · by_cases hch : (intervention_ownership_step ctx p nz
                (Asset.generate_id ctx.h nz.name) (enrich_asset_with_known_data nz.name)
                (bump_asset_trial_relations
                  (tryWrite (create_has_trial
                    { asset_id := Asset.generate_id ctx.h nz.name,
                      trial_id := p.trial.trial_id,
                      evidence := [⟨"clinicaltrials", some p.trial.source_url,
                                    some p.trial.trial_id, 1, ctx.now⟩] })
                    (intervention_asset_step ctx p nz (Asset.generate_id ctx.h nz.name)
                      (enrich_asset_with_known_data nz.name) st).1).1)).1.db.uses_as_comparator k
              = st.db.uses_as_comparator k
            · split at hne
              · exact absurd hch hne
              · exact ih _ k (fun he => hne (he.trans hch))
            · exact intervention_ownership_step_comparator ctx p nz _ _ _ k
                (fun he => hch (he.trans (congrFun b2 k)))

theorem process_record_steps_noFaults (ctx : IngestCtx) (p : ParsedRecord) (st : St)
    (hf : st.faults = noFaults) :
    process_record_steps ctx p st
      = process_interventions ctx p p.interventions
          (process_sponsors ctx p 0 (p.sponsors ++ p.collaborators)
            (bump_trials_documents
              (tryWrite (upsert_document p.doc ctx.now)
                (tryWrite (upsert_trial p.trial ctx.now) st).1).1)).1 := by
  unfold process_record_steps
  dsimp only
  have h1 : (tryWrite (upsert_trial p.trial ctx.now) st).2 = true := by
    rw [tryWrite_noFaults _ _ hf]
  have hf1 : (tryWrite (upsert_trial p.trial ctx.now) st).1.faults = noFaults :=
    (tryWrite_faults_frame _ _).trans hf
  have h2 : (tryWrite (upsert_document p.doc ctx.now)
      (tryWrite (upsert_trial p.trial ctx.now) st).1).2 = true := by
    rw [tryWrite_noFaults _ _ hf1]
  have hf2 : (tryWrite (upsert_document p.doc ctx.now)
      (tryWrite (upsert_trial p.trial ctx.now) st).1).1.faults = noFaults :=
    (tryWrite_faults_frame _ _).trans hf1
  have h4 : (process_sponsors ctx p 0 (p.sponsors ++ p.collaborators)
      (bump_trials_documents
        (tryWrite (upsert_document p.doc ctx.now)
          (tryWrite (upsert_trial p.trial ctx.now) st).1).1)).2 = true :=
    process_sponsors_noFaults ctx p (p.sponsors ++ p.collaborators) 0
      (bump_trials_documents
        (tryWrite (upsert_document p.doc ctx.now)
          (tryWrite (upsert_trial p.trial ctx.now) st).1).1) hf2
  rw [h1, h2, h4]
  simp only [Bool.not_true, Bool.false_eq_true, if_false]

/-- C5: amended sponsor-handling guarantee.  In a fault-free run whose
sponsor mentions have pairwise distinct non-empty identities, (a) every
sponsor or collaborator with a non-industry inferred company type gets a
PARTICIPATES_IN_TRIAL edge to the trial carrying the role the loop
computes (site for academic or site types, otherwise lead_sponsor or
collaborator by position), and (b) any UsesAsComparator edge the record
creates is keyed by the lead sponsor identity and this trial and requires
the lead sponsor to be industry-typed — but no such type check guards the
Owns branch, which is why the claim as stated is refuted by
non_industry_owns_counterexample. -/
theorem non_industry_sponsor_handling (ctx : IngestCtx) (p : ParsedRecord) (st : St)
    (hf : st.faults = noFaults)
    (hnd : ((((p.sponsors ++ p.collaborators).filter (fun n => !n.isEmpty)).map
        (Company.generate_id ctx.h))).Nodup) :
    (∀ (j : Nat) (hj : j < (p.sponsors ++ p.collaborators).length),
      ¬((p.sponsors ++ p.collaborators).get ⟨j, hj⟩).isEmpty →
      ¬ sponsor_company_type p j ((p.sponsors ++ p.collaborators).get ⟨j, hj⟩) = "industry" →
      (process_record_steps ctx p st).1.db.participates_in_trial
        (Company.generate_id ctx.h ((p.sponsors ++ p.collaborators).get ⟨j, hj⟩),
         p.trial.trial_id)
        = some ⟨sponsor_role p j ((p.sponsors ++ p.collaborators).get ⟨j, hj⟩),
                [⟨"clinicaltrials", some p.trial.source_url, some p.trial.trial_id, 1, ctx.now⟩]⟩)
    ∧ (∀ (k : String × String × String),
      (process_record_steps ctx p st).1.db.uses_as_comparator k ≠ st.db.uses_as_comparator k →
      p.sponsors ≠ []
      ∧ k.1 = Company.generate_id ctx.h (p.sponsors.headD "")
      ∧ k.2.2 = p.trial.trial_id
      ∧ Company.infer_type_from_name (p.sponsors.headD "") (some p.lead_sponsor_class)
          = "industry") := by
  have hf2 : (tryWrite (upsert_document p.doc ctx.now)
      (tryWrite (upsert_trial p.trial ctx.now) st).1).1.faults = noFaults :=
    (tryWrite_faults_frame _ _).trans ((tryWrite_faults_frame _ _).trans hf)
  constructor
  · intro j hj hne hni
    rw [process_record_steps_noFaults ctx p st hf]
    rw [process_interventions_participates_frame ctx p p.interventions]
    have hw := process_sponsors_writes ctx p (p.sponsors ++ p.collaborators) 0
      (bump_trials_documents
        (tryWrite (upsert_document p.doc ctx.now)
          (tryWrite (upsert_trial p.trial ctx.now) st).1).1) hf2 hnd j hj hne
      (by rw [Nat.zero_add]; exact hni)
    rw [Nat.zero_add] at hw
    exact hw
  · intro k hne
    rw [process_record_steps_noFaults ctx p st hf] at hne
    have hcomp : (process_sponsors ctx p 0 (p.sponsors ++ p.collaborators)
        (bump_trials_documents
          (tryWrite (upsert_document p.doc ctx.now)
            (tryWrite (upsert_trial p.trial ctx.now) st).1).1)).1.db.uses_as_comparator
        = st.db.uses_as_comparator :=
      (process_sponsors_state ctx p (p.sponsors ++ p.collaborators) 0
        (bump_trials_documents
          (tryWrite (upsert_document p.doc ctx.now)
            (tryWrite (upsert_trial p.trial ctx.now) st).1).1)).1.trans
        ((tryWrite_comparator_frame _ _
            (fun db => upsert_document_comparator_frame _ _ db)).trans
          (tryWrite_comparator_frame _ _
            (fun db => upsert_trial_comparator_frame _ _ db)))
    exact process_interventions_comparator ctx p p.interventions _ k
      (fun he => hne (he.trans (congrFun hcomp k)))

/-- A trial whose lead sponsor is the academic center City of Hope with
registry sponsor class OTHER. -/
def cohTrial : Trial :=
  { merckTrial with trial_id := "NCT00000002", interventions := ["Tebentafusp"],
                    sponsors := ["City of Hope"],
                    source_url := "https://clinicaltrials.gov/study/NCT00000002" }

/-- The parsed City of Hope record. -/
def cohRecord : ParsedRecord :=
  { trial := cohTrial, doc := merckDoc, interventions := ["Tebentafusp"],
    sponsors := ["City of Hope"], collaborators := [], lead_sponsor_class := "OTHER" }

/-- Witness for C5 (amended): ingesting the City of Hope record in a
fault-free run gives the academic lead sponsor a ParticipatesInTrial edge
with role site. -/
theorem non_industry_sponsor_handling_witness :
    (mkSt emptyDB noFaults).faults = noFaults
    ∧ ((((cohRecord.sponsors ++ cohRecord.collaborators).filter (fun n => !n.isEmpty)).map
        (Company.generate_id ctx0.h))).Nodup
    ∧ ¬ sponsor_company_type cohRecord 0 "City of Hope" = "industry"
    ∧ sponsor_role cohRecord 0 "City of Hope" = "site"
    ∧ Company.generate_id ctx0.h "City of Hope" = "company_city of hope"
    ∧ (process_record_steps ctx0 cohRecord (mkSt emptyDB noFaults)).1.db.participates_in_trial
        (Company.generate_id ctx0.h
          ((cohRecord.sponsors ++ cohRecord.collaborators).get ⟨0, by decide⟩),
         cohRecord.trial.trial_id)
      = some ⟨sponsor_role cohRecord 0
                ((cohRecord.sponsors ++ cohRecord.collaborators).get ⟨0, by decide⟩),
              [⟨"clinicaltrials", some cohRecord.trial.source_url,
                some cohRecord.trial.trial_id, 1, ctx0.now⟩]⟩ := by
  refine ⟨rfl, by decide, by decide, by decide, by decide, ?_⟩
  exact (non_industry_sponsor_handling ctx0 cohRecord (mkSt emptyDB noFaults) rfl
    (by decide)).1 0 (by decide) (by decide) (by decide)
